import Mathlib

/-!
# Watchdog supervision of three worker threads (`src/main.c`)

A shallow embedding of the Zephyr sample: three worker threads (`blink0`,
`blink1`, `uart_out`) raise heartbeat flags, `button_read` toggles the
fault-injection gate `button_flag`, and the `watchdog` thread feeds the
hardware watchdog when all three flags are raised.

Every C function is a Lean function on the global variables (`Globals`)
that also returns the trace of observable actions (`Event`) it performs in
program order.  Driver results (`device_get_binding`, `wdt_install_timeout`,
`wdt_setup`, `gpio_pin_get`) are inputs of the model.
-/

namespace WdtThreads

/-! ## Constants of `main.c` -/

/-- The constant `#define NRF_POWER_RESETREAS_RESETPIN_MASK 0x01`. -/
def NRF_POWER_RESETREAS_RESETPIN_MASK : Nat := 0x01

/-- The constant `#define NRF_POWER_RESETREAS_DOG_MASK 0x02`. -/
def NRF_POWER_RESETREAS_DOG_MASK : Nat := 0x02

/-- The constant `#define NRF_POWER_RESETREAS_SREQ_MASK 0x04`. -/
def NRF_POWER_RESETREAS_SREQ_MASK : Nat := 0x04

/-- The constant `#define NRF_POWER_RESETREAS_LOCKUP_MASK 0x08` (never used by the code). -/
def NRF_POWER_RESETREAS_LOCKUP_MASK : Nat := 0x08

/-- The constant `#define NRF_POWER_RESETREAS_OFF_MASK 0x00010000` (never used by the code). -/
def NRF_POWER_RESETREAS_OFF_MASK : Nat := 0x00010000

/-- The supervisor's `k_msleep(50)` at the head of its polling loop. -/
def POLL_MS : Nat := 50

/-- The value of `wdt_config.window.max`: the watchdog expires after 500 ms. -/
def WDT_WINDOW_MAX : Nat := 500

/-! ## Observable actions -/

/-- The heartbeat flags `thread1_flag`, `thread2_flag`, `thread3_flag`. -/
inductive Flag where
  | thread1
  | thread2
  | thread3
  deriving DecidableEq, Repr

/-- One observable action of the program: a call into the kernel or a driver,
or a store of `1` to a heartbeat flag. -/
inductive Event where
  /-- The call `printk(fmt, args...)`. -/
  | printk (fmt : String) (args : List Int)
  /-- The call `gpio_pin_set(dev, pin, value)` on LED `led`. -/
  | gpio_pin_set (led : Nat) (value : Int)
  /-- The call `k_msleep(ms)`. -/
  | k_msleep (ms : Nat)
  /-- The call `wdt_feed(wdt, channel_id)`. -/
  | wdt_feed (channel_id : Int)
  /-- The call `wdt_install_timeout`; `callback` is false when
  `wdt_config.callback == NULL`. -/
  | wdt_install_timeout (callback : Bool) (window_min window_max : Nat)
  /-- The call `wdt_setup(wdt, 0)`. -/
  | wdt_setup
  /-- The store `NRF_POWER->RESETREAS = value`. -/
  | write_RESETREAS (value : Nat)
  /-- The store `threadN_flag = 1`. -/
  | heartbeat (f : Flag)
  deriving DecidableEq, Repr

/-- Number of `wdt_feed` calls in a trace. -/
def feedCount : List Event → Nat
  | [] => 0
  | Event.wdt_feed _ :: es => feedCount es + 1
  | _ :: es => feedCount es

/-- Number of `printk` calls in a trace. -/
def printkCount : List Event → Nat
  | [] => 0
  | Event.printk _ _ :: es => printkCount es + 1
  | _ :: es => printkCount es

/-- The `wdt_install_timeout` calls of a trace, in order. -/
def installCalls : List Event → List Event
  | [] => []
  | Event.wdt_install_timeout cb lo hi :: es =>
      Event.wdt_install_timeout cb lo hi :: installCalls es
  | _ :: es => installCalls es

/-- Total `k_msleep` time of a trace, in milliseconds. -/
def sleepTotal : List Event → Nat
  | [] => 0
  | Event.k_msleep ms :: es => ms + sleepTotal es
  | _ :: es => sleepTotal es

/-! ## Global state -/

/-- The file-scope variables of `main.c` and the two function-local statics. -/
structure Globals where
  /-- The global `bool button_flag = 1;`, the fault-injection gate. -/
  button_flag : Bool
  /-- The global `bool thread1_flag = 0`. -/
  thread1_flag : Bool
  /-- The global `bool thread2_flag = 0`. -/
  thread2_flag : Bool
  /-- The global `bool thread3_flag = 0`. -/
  thread3_flag : Bool
  /-- The local `static bool handled_event;` of `wdt_callback` (zero-initialised). -/
  handled_event : Bool
  /-- The local `static bool thread_is_running=1;` of `button_read`. -/
  thread_is_running : Bool
  deriving DecidableEq, Repr

/-- The values of the globals at boot. -/
def Globals.boot : Globals :=
  { button_flag := true
    thread1_flag := false
    thread2_flag := false
    thread3_flag := false
    handled_event := false
    thread_is_running := true }

/-- Read a heartbeat flag. -/
def Globals.flag (g : Globals) : Flag → Bool
  | Flag.thread1 => g.thread1_flag
  | Flag.thread2 => g.thread2_flag
  | Flag.thread3 => g.thread3_flag

/-- A C `int` after an arithmetic step: the value wrapped to 32 bits, two's
complement. -/
def wrap32 (x : Int) : Int :=
  (x + 2 ^ 31) % 2 ^ 32 - 2 ^ 31

/-! ## `wdt_callback` -/

/-- The ISR `wdt_callback(wdt_dev, channel_id)`. -/
def wdt_callback (channel_id : Int) (g : Globals) : Globals × List Event :=
  if g.handled_event then
    (g, [])
  else
    ({ g with handled_event := true },
      [Event.wdt_feed channel_id,
       Event.printk "Handled things..ready to reset using watchdog\n" []])

/-- The ISR `wdt_callback` invoked `n` times in succession; the traces are
concatenated. -/
def wdt_callback_n (channel_id : Int) : Nat → Globals → Globals × List Event
  | 0, g => (g, [])
  | n + 1, g =>
      let r := wdt_callback channel_id g
      let r2 := wdt_callback_n channel_id n r.1
      (r2.1, r.2 ++ r2.2)

/-! ## `print_reset_reason` -/

/-- The function `print_reset_reason()`, on the value `rr` read from
`NRF_POWER->RESETREAS`. -/
def print_reset_reason (rr : Nat) : List Event :=
  [Event.printk "Reset reasons:" []]
  ++ (if 0 = rr then [Event.printk "- NONE\n" []] else [])
  ++ (if 0 ≠ rr &&& NRF_POWER_RESETREAS_RESETPIN_MASK then
        [Event.printk "- Reset from pin\n" []] else [])
  ++ (if 0 ≠ rr &&& NRF_POWER_RESETREAS_DOG_MASK then
        [Event.printk "- Reset from pin WDT\n" []] else [])
  ++ (if 0 ≠ rr &&& NRF_POWER_RESETREAS_SREQ_MASK then
        [Event.printk "- Reset from software\n" []] else [])
  ++ (if 0 ≠ rr &&& NRF_POWER_RESETREAS_SREQ_MASK then
        [Event.printk "- Reset from powerup\n" []] else [])
  ++ [Event.write_RESETREAS 0xffffffff]

/-! ## The worker threads: one pass through each `while (1)` body -/

/-- One iteration of the loop of `blink0` (thread 1); `cnt` is its local. -/
def blink0_iter (cnt : Int) (g : Globals) : Int × Globals × List Event :=
  (wrap32 (cnt + 1),
   { g with thread1_flag := true },
   [Event.gpio_pin_set 0 (Int.tmod (cnt + 1) 2),
    Event.k_msleep 100,
    Event.heartbeat Flag.thread1])

/-- The inner `for (int i = 0; i < 8; i++) { k_msleep(100); thread2_flag = 1; }`
of `blink1`, with `n` passes left. -/
def blink1_for : Nat → Globals → Globals × List Event
  | 0, g => (g, [])
  | n + 1, g =>
      let r := blink1_for n { g with thread2_flag := true }
      (r.1, [Event.k_msleep 100, Event.heartbeat Flag.thread2] ++ r.2)

/-- One iteration of the loop of `blink1` (thread 2); `cnt` is its local. -/
def blink1_iter (cnt : Int) (g : Globals) : Int × Globals × List Event :=
  if g.button_flag then
    let r := blink1_for 8 g
    (wrap32 (cnt + 1), r.1,
     [Event.gpio_pin_set 1 (Int.tmod (cnt + 1) 2)] ++ r.2 ++ [Event.k_msleep 100])
  else
    (cnt, g, [Event.k_msleep 100])

/-- One iteration of the loop of `uart_out` (thread 3); `cnt` is its local. -/
def uart_out_iter (cnt : Int) (g : Globals) : Int × Globals × List Event :=
  let p1 := [Event.printk "Toggle USR1 LED1: Counter = %d\n" [cnt]]
  let p2 := if cnt ≥ 10 then [Event.printk "Toggle USR2 LED2: Counter = %d\n" [cnt]] else []
  let cnt1 := if cnt ≥ 10 then 0 else cnt
  (wrap32 (cnt1 + 1),
   { g with thread3_flag := true },
   p1 ++ p2 ++ [Event.k_msleep 100, Event.heartbeat Flag.thread3])

/-- One iteration of the loop of `button_read` (thread 4); `val` is the result
of `gpio_pin_get(button, SW0_GPIO_PIN)`. -/
def button_read_iter (val : Bool) (g : Globals) : Globals × List Event :=
  if val then
    if g.thread_is_running then
      ({ g with button_flag := false, thread_is_running := false },
       [Event.printk "Stopped thread\n" [], Event.k_msleep 250, Event.k_msleep 50])
    else
      ({ g with button_flag := true, thread_is_running := true },
       [Event.printk "Resumed thread\n" [], Event.k_msleep 250, Event.k_msleep 50])
  else
    (g, [Event.k_msleep 50])

/-! ## The supervisor thread `watchdog` -/

/-- One iteration of the polling loop of `watchdog` (thread 5), lines 320-331. -/
def watchdog_poll (wdt_channel_id : Int) (g : Globals) : Globals × List Event :=
  if g.thread1_flag && g.thread2_flag && g.thread3_flag then
    ({ g with thread1_flag := false, thread2_flag := false, thread3_flag := false },
     [Event.k_msleep POLL_MS, Event.wdt_feed wdt_channel_id])
  else
    (g, [Event.k_msleep POLL_MS])

/-- The results of the driver calls made while `watchdog` starts. -/
structure DriverOutcome where
  /-- Whether `device_get_binding(WDT_DEV_NAME)` returned a device. -/
  wdt_found : Bool
  /-- Return value of the first `wdt_install_timeout`. -/
  install1 : Int
  /-- Return value of the second `wdt_install_timeout`, if it is made. -/
  install2 : Int
  /-- Return value of `wdt_setup`. -/
  setup : Int
  deriving DecidableEq, Repr

/-- The start of `watchdog()` up to the polling loop (lines 277-318).  `ENOTSUP`
is the errno constant of the C library, `rr` the reset-cause register.  The
result is the trace and `some wdt_channel_id` when the polling loop is entered,
`none` when the function returns. -/
def watchdog_start (ENOTSUP : Int) (rr : Nat) (d : DriverOutcome) : List Event × Option Int :=
  let t0 := print_reset_reason rr
  if !d.wdt_found then
    (t0 ++ [Event.printk "Cannot get WDT device\n" []], none)
  else
    let t1 := t0 ++ [Event.printk "WDT timeout = %dms\n" [(WDT_WINDOW_MAX : Int)],
                     Event.wdt_install_timeout true 0 WDT_WINDOW_MAX]
    let r :=
      if d.install1 = -ENOTSUP then
        (t1 ++ [Event.wdt_install_timeout false 0 WDT_WINDOW_MAX], d.install2)
      else
        (t1, d.install1)
    let t2 := r.1
    let wdt_channel_id := r.2
    if wdt_channel_id < 0 then
      (t2 ++ [Event.printk "Watchdog install error\n" []], none)
    else
      let t3 := t2 ++ [Event.wdt_setup]
      if d.setup < 0 then
        (t3 ++ [Event.printk "Watchdog setup error\n" []], none)
      else
        (t3 ++ [Event.printk "Watchdog thread started\n" []], some wdt_channel_id)

/-! ## One step of the system -/

/-- The globals together with the `cnt` locals of the three workers. -/
structure Sys where
  /-- The global variables. -/
  g : Globals
  /-- The local `cnt` of `blink0`. -/
  cnt_blink0 : Int
  /-- The local `cnt` of `blink1`. -/
  cnt_blink1 : Int
  /-- The local `cnt` of `uart_out`. -/
  cnt_uart : Int
  deriving DecidableEq, Repr

/-- One step of the system: a loop iteration of a thread, one supervisor poll,
or one invocation of the expiry ISR. -/
inductive Step where
  | blink0
  | blink1
  | uart_out
  | button_read (val : Bool)
  | poll
  | wdt_callback
  deriving DecidableEq, Repr

/-- The worker thread that stores to a heartbeat flag. -/
def Flag.owner : Flag → Step
  | Flag.thread1 => Step.blink0
  | Flag.thread2 => Step.blink1
  | Flag.thread3 => Step.uart_out

/-- Run one step; `ch` is the supervisor's `wdt_channel_id`. -/
def step (ch : Int) : Step → Sys → Sys × List Event
  | Step.blink0, s =>
      let r := blink0_iter s.cnt_blink0 s.g
      ({ s with g := r.2.1, cnt_blink0 := r.1 }, r.2.2)
  | Step.blink1, s =>
      let r := blink1_iter s.cnt_blink1 s.g
      ({ s with g := r.2.1, cnt_blink1 := r.1 }, r.2.2)
  | Step.uart_out, s =>
      let r := uart_out_iter s.cnt_uart s.g
      ({ s with g := r.2.1, cnt_uart := r.1 }, r.2.2)
  | Step.button_read val, s =>
      let r := button_read_iter val s.g
      ({ s with g := r.1 }, r.2)
  | Step.poll, s =>
      let r := watchdog_poll ch s.g
      ({ s with g := r.1 }, r.2)
  | Step.wdt_callback, s =>
      let r := wdt_callback ch s.g
      ({ s with g := r.1 }, r.2)

/-! ## The timed model

Time is counted in milliseconds.  A thread runs, in no time, from the point
where it wakes up to its next `k_msleep(ms)`, and is then suspended for exactly
`ms`.  All five threads have the same priority and are started at boot
(`K_THREAD_DEFINE(..., PRIORITY, 0, 0)`), so a running thread is not interrupted
by another one; threads that are ready at the same instant run in any order.
Time advances, to the next instant at which a thread wakes, only when no thread
is ready.  The hardware timer itself (its expiry, `wdt_callback` and the reset)
is not part of the model: the model records when `wdt_feed` is called. -/

/-- Where `blink0`, resp. `uart_out`, is suspended: not yet started, or inside
the `k_msleep(100)` of its loop. -/
inductive WorkerPc where
  | start
  | sleeping
  deriving DecidableEq, Repr

/-- Where `blink1` is suspended: not yet started, inside the `k_msleep(100)` of
pass `i` of the `for`, or inside the `k_msleep(100)` that ends the loop body. -/
inductive Blink1Pc where
  | start
  | in_for (i : Nat)
  | tail
  deriving DecidableEq, Repr

/-- Where `button_read` is suspended: not yet started, inside the debounce
`k_msleep(250)`, or inside the `k_msleep(50)` that ends the loop body. -/
inductive ButtonPc where
  | start
  | debounce
  | idle
  deriving DecidableEq, Repr

/-- Where `watchdog` is: not yet started, inside the `k_msleep(50)` of the
polling loop (with its `wdt_channel_id`), or returned after a failed start. -/
inductive WatchdogPc where
  | start
  | polling (wdt_channel_id : Int)
  | returned
  deriving DecidableEq, Repr

/-- What the platform supplies when `watchdog` starts. -/
structure Platform where
  /-- The errno constant `ENOTSUP` of the C library. -/
  ENOTSUP : Int
  /-- The value of `NRF_POWER->RESETREAS` at boot. -/
  rr : Nat
  /-- The results of the driver calls. -/
  d : DriverOutcome
  deriving DecidableEq, Repr

/-- The state of the timed system. -/
structure Timed where
  /-- The current time in ms since boot. -/
  now : Nat
  /-- The global variables. -/
  g : Globals
  /-- The position of `blink0`. -/
  blink0_pc : WorkerPc
  /-- The time at which `blink0` wakes. -/
  blink0_wake : Nat
  /-- The local `cnt` of `blink0`. -/
  blink0_cnt : Int
  /-- The position of `blink1`. -/
  blink1_pc : Blink1Pc
  /-- The time at which `blink1` wakes. -/
  blink1_wake : Nat
  /-- The local `cnt` of `blink1`. -/
  blink1_cnt : Int
  /-- The position of `uart_out`. -/
  uart_pc : WorkerPc
  /-- The time at which `uart_out` wakes. -/
  uart_wake : Nat
  /-- The local `cnt` of `uart_out`. -/
  uart_cnt : Int
  /-- The position of `button_read`. -/
  button_pc : ButtonPc
  /-- The time at which `button_read` wakes. -/
  button_wake : Nat
  /-- The position of `watchdog`. -/
  watchdog_pc : WatchdogPc
  /-- The time at which `watchdog` wakes. -/
  watchdog_wake : Nat
  deriving DecidableEq, Repr

/-- The timed system at boot: every thread is ready at time 0. -/
def Timed.boot : Timed :=
  { now := 0
    g := Globals.boot
    blink0_pc := WorkerPc.start, blink0_wake := 0, blink0_cnt := 0
    blink1_pc := Blink1Pc.start, blink1_wake := 0, blink1_cnt := 0
    uart_pc := WorkerPc.start, uart_wake := 0, uart_cnt := 1
    button_pc := ButtonPc.start, button_wake := 0
    watchdog_pc := WatchdogPc.start, watchdog_wake := 0 }

/-- What the scheduler does next: run a ready thread up to its next sleep, or
let time pass. -/
inductive Action where
  | blink0
  | blink1
  | uart_out
  /-- Run `button_read`; `val` is what `gpio_pin_get` returns if it is called. -/
  | button_read (val : Bool)
  | watchdog
  /-- No thread is ready: time passes until the next thread wakes. -/
  | advance
  deriving DecidableEq, Repr

/-- Thread `blink0` from its wake-up to its next `k_msleep`. -/
def blink0_segment (s : Timed) : Timed × List Event :=
  match s.blink0_pc with
  | WorkerPc.start =>
      ({ s with blink0_pc := WorkerPc.sleeping, blink0_wake := s.now + 100 },
       [Event.printk "Blink0 thread started\n" [],
        Event.gpio_pin_set 0 (Int.tmod (s.blink0_cnt + 1) 2),
        Event.k_msleep 100])
  | WorkerPc.sleeping =>
      let cnt := wrap32 (s.blink0_cnt + 1)
      ({ s with g := { s.g with thread1_flag := true }
                blink0_cnt := cnt
                blink0_wake := s.now + 100 },
       [Event.heartbeat Flag.thread1,
        Event.gpio_pin_set 0 (Int.tmod (cnt + 1) 2),
        Event.k_msleep 100])

/-- The head of the loop body of `blink1`, from the test of `button_flag` to the
next `k_msleep`. -/
def blink1_head (s : Timed) : Timed × List Event :=
  if s.g.button_flag then
    ({ s with blink1_pc := Blink1Pc.in_for 0, blink1_wake := s.now + 100 },
     [Event.gpio_pin_set 1 (Int.tmod (s.blink1_cnt + 1) 2), Event.k_msleep 100])
  else
    ({ s with blink1_pc := Blink1Pc.tail, blink1_wake := s.now + 100 },
     [Event.k_msleep 100])

/-- Thread `blink1` from its wake-up to its next `k_msleep`. -/
def blink1_segment (s : Timed) : Timed × List Event :=
  match s.blink1_pc with
  | Blink1Pc.start =>
      let r := blink1_head s
      (r.1, [Event.printk "Blink1 thread started\n" []] ++ r.2)
  | Blink1Pc.in_for i =>
      let s1 := { s with g := { s.g with thread2_flag := true } }
      if i + 1 < 8 then
        ({ s1 with blink1_pc := Blink1Pc.in_for (i + 1), blink1_wake := s.now + 100 },
         [Event.heartbeat Flag.thread2, Event.k_msleep 100])
      else
        ({ s1 with blink1_cnt := wrap32 (s.blink1_cnt + 1)
                   blink1_pc := Blink1Pc.tail
                   blink1_wake := s.now + 100 },
         [Event.heartbeat Flag.thread2, Event.k_msleep 100])
  | Blink1Pc.tail => blink1_head s

/-- The head of the loop body of `uart_out`, up to its `k_msleep`. -/
def uart_out_head (s : Timed) : Timed × List Event :=
  let cnt := s.uart_cnt
  let p1 := [Event.printk "Toggle USR1 LED1: Counter = %d\n" [cnt]]
  let p2 := if cnt ≥ 10 then [Event.printk "Toggle USR2 LED2: Counter = %d\n" [cnt]] else []
  let cnt1 := if cnt ≥ 10 then 0 else cnt
  ({ s with uart_cnt := cnt1, uart_pc := WorkerPc.sleeping, uart_wake := s.now + 100 },
   p1 ++ p2 ++ [Event.k_msleep 100])

/-- Thread `uart_out` from its wake-up to its next `k_msleep`. -/
def uart_out_segment (s : Timed) : Timed × List Event :=
  match s.uart_pc with
  | WorkerPc.start =>
      let r := uart_out_head s
      (r.1, [Event.printk "Serial feedback thread started\n" []] ++ r.2)
  | WorkerPc.sleeping =>
      let s1 := { s with uart_cnt := wrap32 (s.uart_cnt + 1)
                         g := { s.g with thread3_flag := true } }
      let r := uart_out_head s1
      (r.1, [Event.heartbeat Flag.thread3] ++ r.2)

/-- The head of the loop body of `button_read`, from `gpio_pin_get` to the next
`k_msleep`. -/
def button_read_head (val : Bool) (s : Timed) : Timed × List Event :=
  if val then
    if s.g.thread_is_running then
      ({ s with g := { s.g with button_flag := false, thread_is_running := false }
                button_pc := ButtonPc.debounce
                button_wake := s.now + 250 },
       [Event.printk "Stopped thread\n" [], Event.k_msleep 250])
    else
      ({ s with g := { s.g with button_flag := true, thread_is_running := true }
                button_pc := ButtonPc.debounce
                button_wake := s.now + 250 },
       [Event.printk "Resumed thread\n" [], Event.k_msleep 250])
  else
    ({ s with button_pc := ButtonPc.idle, button_wake := s.now + 50 },
     [Event.k_msleep 50])

/-- Thread `button_read` from its wake-up to its next `k_msleep`; the driver
calls before the loop are taken to succeed. -/
def button_read_segment (val : Bool) (s : Timed) : Timed × List Event :=
  match s.button_pc with
  | ButtonPc.start =>
      let r := button_read_head val s
      (r.1, [Event.printk "Button thread running\n" []] ++ r.2)
  | ButtonPc.debounce =>
      ({ s with button_pc := ButtonPc.idle, button_wake := s.now + 50 },
       [Event.k_msleep 50])
  | ButtonPc.idle => button_read_head val s

/-- Thread `watchdog` from its wake-up to its next `k_msleep`, or to its
`return`. -/
def watchdog_segment (P : Platform) (s : Timed) : Timed × List Event :=
  match s.watchdog_pc with
  | WatchdogPc.start =>
      match watchdog_start P.ENOTSUP P.rr P.d with
      | (t, none) => ({ s with watchdog_pc := WatchdogPc.returned }, t)
      | (t, some ch) =>
          ({ s with watchdog_pc := WatchdogPc.polling ch, watchdog_wake := s.now + POLL_MS },
           t ++ [Event.k_msleep POLL_MS])
  | WatchdogPc.polling ch =>
      if s.g.thread1_flag && s.g.thread2_flag && s.g.thread3_flag then
        ({ s with g := { s.g with thread1_flag := false, thread2_flag := false,
                                  thread3_flag := false }
                  watchdog_wake := s.now + POLL_MS },
         [Event.wdt_feed ch, Event.k_msleep POLL_MS])
      else
        ({ s with watchdog_wake := s.now + POLL_MS }, [Event.k_msleep POLL_MS])
  | WatchdogPc.returned => (s, [])

/-- Whether `watchdog` has not returned. -/
def Timed.watchdog_live (s : Timed) : Bool :=
  match s.watchdog_pc with
  | WatchdogPc.returned => false
  | _ => true

/-- Whether some thread is ready to run. -/
def Timed.some_ready (s : Timed) : Bool :=
  decide (s.blink0_wake ≤ s.now) || decide (s.blink1_wake ≤ s.now)
  || decide (s.uart_wake ≤ s.now) || decide (s.button_wake ≤ s.now)
  || (s.watchdog_live && decide (s.watchdog_wake ≤ s.now))

/-- The next instant at which a thread wakes. -/
def Timed.next_wake (s : Timed) : Nat :=
  let m := min (min s.blink0_wake s.blink1_wake) (min s.uart_wake s.button_wake)
  if s.watchdog_live then min m s.watchdog_wake else m

/-- Attach the time of occurrence to every event of a segment. -/
def stamp (t : Nat) (es : List Event) : List (Nat × Event) :=
  es.map (fun e => (t, e))

/-- One scheduler action.  An action that is not possible in `s` (the thread is
still asleep or has returned; a thread is ready when time should pass) leaves
the state as it is. -/
def tstep (P : Platform) (a : Action) (s : Timed) : Timed × List (Nat × Event) :=
  match a with
  | Action.blink0 =>
      if s.blink0_wake ≤ s.now then
        ((blink0_segment s).1, stamp s.now (blink0_segment s).2) else (s, [])
  | Action.blink1 =>
      if s.blink1_wake ≤ s.now then
        ((blink1_segment s).1, stamp s.now (blink1_segment s).2) else (s, [])
  | Action.uart_out =>
      if s.uart_wake ≤ s.now then
        ((uart_out_segment s).1, stamp s.now (uart_out_segment s).2) else (s, [])
  | Action.button_read val =>
      if s.button_wake ≤ s.now then
        ((button_read_segment val s).1, stamp s.now (button_read_segment val s).2)
      else (s, [])
  | Action.watchdog =>
      if s.watchdog_live = true ∧ s.watchdog_wake ≤ s.now then
        ((watchdog_segment P s).1, stamp s.now (watchdog_segment P s).2) else (s, [])
  | Action.advance =>
      if s.some_ready then (s, []) else ({ s with now := s.next_wake }, [])

/-- Run a schedule from `s`: the final state and the timed trace. -/
def trun (P : Platform) : List Action → Timed → Timed × List (Nat × Event)
  | [], s => (s, [])
  | a :: rest, s =>
      ((trun P rest (tstep P a s).1).1, (tstep P a s).2 ++ (trun P rest (tstep P a s).1).2)

/-- Whether the gate is disabled in `s` and in every state the schedule goes
through after it. -/
def gate_stays_off (P : Platform) : List Action → Timed → Bool
  | [], s => !s.g.button_flag
  | a :: rest, s => !s.g.button_flag && gate_stays_off P rest (tstep P a s).1

/-- Whether the action is possible in `s`: the thread is ready, or no thread is
ready and time can pass. -/
def Action.ready (a : Action) (s : Timed) : Bool :=
  match a with
  | Action.blink0 => decide (s.blink0_wake ≤ s.now)
  | Action.blink1 => decide (s.blink1_wake ≤ s.now)
  | Action.uart_out => decide (s.uart_wake ≤ s.now)
  | Action.button_read _ => decide (s.button_wake ≤ s.now)
  | Action.watchdog => s.watchdog_live && decide (s.watchdog_wake ≤ s.now)
  | Action.advance => !s.some_ready

/-- Whether every action of the schedule is possible when its turn comes. -/
def all_ready (P : Platform) : List Action → Timed → Bool
  | [], _ => true
  | a :: rest, s => a.ready s && all_ready P rest (tstep P a s).1

/-- The times of the `wdt_feed` calls of a timed trace. -/
def feedTimes : List (Nat × Event) → List Nat
  | [] => []
  | (t, Event.wdt_feed _) :: es => t :: feedTimes es
  | _ :: es => feedTimes es

/-- A platform on which the watchdog installs and arms. -/
def Platform.ok : Platform :=
  { ENOTSUP := 134, rr := 0, d := { wdt_found := true, install1 := 0, install2 := 0, setup := 0 } }

/-- The start of the example run: at time 0 every thread starts, `blink1` tests
the gate, finds it enabled and enters its `for`; then time passes until 50. -/
def example_start : List Action :=
  [Action.blink0, Action.blink1, Action.uart_out, Action.button_read false,
   Action.watchdog, Action.advance]

/-- The button is pressed: at time 50 `button_read` disables the gate. -/
def example_press : List Action :=
  [Action.button_read true]

/-- An instant at which only the supervisor wakes, and the passage of time
after it. -/
def example_poll : List Action :=
  [Action.watchdog, Action.advance]

/-- An instant at which the workers and then the supervisor wake, and the
passage of time after it. -/
def example_beat : List Action :=
  [Action.blink0, Action.blink1, Action.uart_out, Action.watchdog, Action.advance]

/-- The example run after the gate is disabled at time 50, up to time 850; the
button is not pressed again. -/
def example_run : List Action :=
  -- the instants 50, 100, ..., 250
  example_poll ++ example_beat ++ example_poll ++ example_beat ++ example_poll
  -- the instant 300, at which the debounce sleep of `button_read` ends
  ++ [Action.button_read false] ++ example_beat
  -- the instants 350, 400, ..., 800
  ++ [Action.button_read false] ++ example_poll ++ [Action.button_read false] ++ example_beat
  ++ [Action.button_read false] ++ example_poll ++ [Action.button_read false] ++ example_beat
  ++ [Action.button_read false] ++ example_poll ++ [Action.button_read false] ++ example_beat
  ++ [Action.button_read false] ++ example_poll ++ [Action.button_read false] ++ example_beat
  ++ [Action.button_read false] ++ example_poll ++ [Action.button_read false] ++ example_beat

/-- A run from boot up to the instant 100, at which `blink0` has stored to
`thread1_flag` and the other two workers have not run yet. -/
def early_report : List Action :=
  example_start ++ [Action.button_read false, Action.watchdog, Action.advance, Action.blink0]

/-- The rest of the instant 100 after the supervisor's poll, `blink1` and
`uart_out` storing to their flags, and the passage of time to 150. -/
def late_reports : List Action :=
  [Action.blink1, Action.uart_out, Action.button_read false, Action.advance]

/-- A run from boot up to the instant 100, at which all three workers have
stored to their flags. -/
def all_reports : List Action :=
  example_start ++ [Action.button_read false, Action.watchdog, Action.advance,
    Action.blink0, Action.blink1, Action.uart_out]

/-- The instants 100 to 200 after a poll at 100: a poll at 150, and at 200 the
stores of `blink1` and `uart_out`, `blink0` not having run yet. -/
def reports_without_blink0 : List Action :=
  [Action.button_read false, Action.advance, Action.button_read false, Action.watchdog,
   Action.advance, Action.blink1, Action.uart_out]

/-- An instant at which the supervisor wakes before the workers, and the
passage of time after it. -/
def example_late_beat : List Action :=
  [Action.watchdog, Action.blink0, Action.blink1, Action.uart_out, Action.advance]

/-- The start of a second example run: at time 0 the workers start, `blink1`
finds the gate enabled and enters its `for`, and then `button_read` sees the
button pressed and disables the gate. -/
def example_press_at_boot : List Action :=
  [Action.blink0, Action.blink1, Action.uart_out, Action.button_read true]

/-- The second example run after the gate is disabled at time 0, up to time
900; at every instant the supervisor runs before the workers, and the button is
not pressed again. -/
def example_late_run : List Action :=
  -- the instants 0, 50, ..., 200
  example_poll ++ example_poll ++ example_late_beat ++ example_poll ++ example_late_beat
  -- the instant 250, at which the debounce sleep of `button_read` ends
  ++ [Action.button_read false] ++ example_poll
  -- the instants 300, 350, ..., 850
  ++ [Action.button_read false] ++ example_late_beat
  ++ [Action.button_read false] ++ example_poll
  ++ [Action.button_read false] ++ example_late_beat
  ++ [Action.button_read false] ++ example_poll
  ++ [Action.button_read false] ++ example_late_beat
  ++ [Action.button_read false] ++ example_poll
  ++ [Action.button_read false] ++ example_late_beat
  ++ [Action.button_read false] ++ example_poll
  ++ [Action.button_read false] ++ example_late_beat
  ++ [Action.button_read false] ++ example_poll
  ++ [Action.button_read false] ++ example_late_beat
  ++ [Action.button_read false] ++ example_poll

/-! ## Invariants of the timed model -/

/-- The times at which the timed threads wake are consistent with the current
time: no thread has overslept, no sleep lasts longer than the thread's longest
`k_msleep`, a thread that has not started is ready, and the `for` index of
`blink1` is below 8. -/
def Timed.WF (s : Timed) : Prop :=
  (s.now ≤ s.blink0_wake ∧ s.blink0_wake ≤ s.now + 100
    ∧ (s.blink0_pc = WorkerPc.start → s.blink0_wake ≤ s.now))
  ∧ (s.now ≤ s.blink1_wake ∧ s.blink1_wake ≤ s.now + 100
    ∧ (s.blink1_pc = Blink1Pc.start → s.blink1_wake ≤ s.now)
    ∧ (∀ i, s.blink1_pc = Blink1Pc.in_for i → i < 8))
  ∧ (s.now ≤ s.uart_wake ∧ s.uart_wake ≤ s.now + 100
    ∧ (s.uart_pc = WorkerPc.start → s.uart_wake ≤ s.now))
  ∧ s.now ≤ s.button_wake
  ∧ (s.watchdog_pc ≠ WatchdogPc.returned →
      s.now ≤ s.watchdog_wake ∧ s.watchdog_wake ≤ s.now + 50
      ∧ (s.watchdog_pc = WatchdogPc.start → s.watchdog_wake ≤ s.now))

/-- The time of the next store to `thread1_flag`. -/
def Timed.next_beat0 (s : Timed) : Nat :=
  match s.blink0_pc with
  | WorkerPc.start => s.blink0_wake + 100
  | WorkerPc.sleeping => s.blink0_wake

/-- The time of the next store to `thread3_flag`. -/
def Timed.next_beat3 (s : Timed) : Nat :=
  match s.uart_pc with
  | WorkerPc.start => s.uart_wake + 100
  | WorkerPc.sleeping => s.uart_wake

/-- The time of the supervisor's next check of the flags. -/
def Timed.next_poll (s : Timed) : Nat :=
  match s.watchdog_pc with
  | WatchdogPc.start => s.watchdog_wake + 50
  | _ => s.watchdog_wake

/-- With the gate disabled, no `wdt_feed` can come after time `D`: either
`blink1` is still in its `for` and its last store to `thread2_flag` comes 50 ms
before `D`, or it has left the `for` and, if `thread2_flag` is still raised, the
other two flags are raised 50 ms before `D` and the next check comes before `D`. -/
def Timed.Safe (D : Nat) (s : Timed) : Prop :=
  match s.blink1_pc with
  | Blink1Pc.in_for i => s.blink1_wake + (7 - i) * 100 + 50 ≤ D
  | _ =>
      s.g.thread2_flag = false ∨ s.watchdog_live = false
      ∨ ((s.g.thread1_flag = true ∨ s.next_beat0 + 50 ≤ D)
          ∧ (s.g.thread3_flag = true ∨ s.next_beat3 + 50 ≤ D)
          ∧ s.next_poll ≤ D)

/-- What holds of the flags and the wake-up times in every state reached from
boot, where all threads start at time 0: the workers wake at multiples of
100 ms and the supervisor at multiples of 50 ms; `thread2_flag` is raised only
from the instant of a store by `blink1` until the supervisor's next check, 50 ms
later, by which time the other two flags are raised as well. -/
def Timed.Sync (s : Timed) : Prop :=
  (s.now % 50 = 0 ∧ s.blink0_wake % 100 = 0 ∧ s.blink1_wake % 100 = 0
    ∧ s.uart_wake % 100 = 0 ∧ s.button_wake % 50 = 0 ∧ s.watchdog_wake % 50 = 0)
  ∧ ((s.blink0_pc = WorkerPc.start ∨ s.blink1_pc = Blink1Pc.start
      ∨ s.uart_pc = WorkerPc.start ∨ s.watchdog_pc = WatchdogPc.start) → s.now = 0)
  ∧ (∀ i, s.blink1_pc = Blink1Pc.in_for i → 100 ≤ s.blink1_wake)
  ∧ (s.g.thread2_flag = true → 100 ≤ s.now)
  ∧ (s.g.thread2_flag = true →
      s.watchdog_pc = WatchdogPc.returned ∨ s.now + 100 = s.blink1_wake
      ∨ (s.now + 50 = s.blink1_wake ∧ s.watchdog_wake ≤ s.now))
  ∧ (s.g.thread2_flag = true →
      s.watchdog_pc = WatchdogPc.returned
      ∨ ((s.g.thread1_flag = true ∨ s.blink0_wake ≤ s.now)
          ∧ (s.g.thread3_flag = true ∨ s.uart_wake ≤ s.now)))
  ∧ (s.g.thread1_flag = false → s.blink0_wake = s.now + 100 → 100 ≤ s.now →
      s.blink1_wake = s.now + 100)
  ∧ (s.g.thread3_flag = false → s.uart_wake = s.now + 100 → 100 ≤ s.now →
      s.blink1_wake = s.now + 100)

/-! ## Repeated iterations and the time between heartbeats -/

/-- The body of a worker loop run `n` times in succession, with no other
thread writing the globals in between; the traces are concatenated. -/
def loop (body : Int → Globals → Int × Globals × List Event) :
    Nat → Int → Globals → Int × Globals × List Event
  | 0, cnt, g => (cnt, g, [])
  | n + 1, cnt, g =>
      let r := body cnt g
      let r2 := loop body n r.1 r.2.1
      (r2.1, r2.2.1, r.2.2 ++ r2.2.2)

/-- The `k_msleep` time between each two consecutive stores to flag `f` in a
trace.  `acc` is the time slept since the last store, `none` before the first
store. -/
def heartbeatGaps (f : Flag) : Option Nat → List Event → List Nat
  | _, [] => []
  | acc, Event.k_msleep ms :: es => heartbeatGaps f (acc.map (· + ms)) es
  | acc, Event.heartbeat f' :: es =>
      if f' = f then
        (match acc with
          | some a => [a]
          | none => []) ++ heartbeatGaps f (some 0) es
      else heartbeatGaps f acc es
  | acc, _ :: es => heartbeatGaps f acc es

/-! ## Basic facts -/

theorem feedCount_append (xs ys : List Event) :
    feedCount (xs ++ ys) = feedCount xs + feedCount ys := by
  induction xs with
  | nil => simp [feedCount]
  | cons e es ih =>
      cases e <;> simp [feedCount, ih]
      omega

theorem printkCount_append (xs ys : List Event) :
    printkCount (xs ++ ys) = printkCount xs + printkCount ys := by
  induction xs with
  | nil => simp [printkCount]
  | cons e es ih =>
      cases e <;> simp [printkCount, ih]
      omega

theorem wdt_callback_handled (ch : Int) (g : Globals) (h : g.handled_event = true) :
    wdt_callback ch g = (g, []) := by
  simp [wdt_callback, h]

theorem wdt_callback_n_handled (ch : Int) (n : Nat) (g : Globals)
    (h : g.handled_event = true) : wdt_callback_n ch n g = (g, []) := by
  induction n with
  | zero => rfl
  | succ n ih => simp [wdt_callback_n, wdt_callback_handled ch g h, ih]

/-! ## The supervisor's poll -/

/-- C1: for every state of the flags, one iteration of the polling loop calls
`wdt_feed` exactly once when `thread1_flag`, `thread2_flag` and `thread3_flag`
are all true at the check and zero times otherwise; when it feeds, all three
flags are false afterwards. -/
theorem watchdog_poll_feeds_iff_all (ch : Int) (g : Globals) :
    feedCount (watchdog_poll ch g).2
        = (if g.thread1_flag = true ∧ g.thread2_flag = true ∧ g.thread3_flag = true
            then 1 else 0)
    ∧ (feedCount (watchdog_poll ch g).2 = 1 →
        (watchdog_poll ch g).1.thread1_flag = false
        ∧ (watchdog_poll ch g).1.thread2_flag = false
        ∧ (watchdog_poll ch g).1.thread3_flag = false) := by
  rcases g with ⟨b, f1, f2, f3, h, r⟩
  cases f1 <;> cases f2 <;> cases f3 <;> simp [watchdog_poll, feedCount]

/-- C3, as stated, fails: with only `thread1_flag` raised the poll does not
feed and `thread1_flag` is still true afterwards. -/
theorem watchdog_poll_keeps_partial_flags :
    (watchdog_poll 0 { Globals.boot with thread1_flag := true }).1.thread1_flag = true
    ∧ feedCount (watchdog_poll 0 { Globals.boot with thread1_flag := true }).2 = 0 := by
  decide

/-- C3, amended: one supervisor poll leaves all three flags false when all
three were true at the check, and otherwise changes no global at all. -/
theorem watchdog_poll_clears_only_when_all (ch : Int) (g : Globals) :
    (watchdog_poll ch g).1
      = (if g.thread1_flag = true ∧ g.thread2_flag = true ∧ g.thread3_flag = true
          then { g with thread1_flag := false, thread2_flag := false, thread3_flag := false }
          else g) := by
  rcases g with ⟨b, f1, f2, f3, h, r⟩
  cases f1 <;> cases f2 <;> cases f3 <;> simp [watchdog_poll]

/-! ## The expiry callback -/

/-- C4: from `handled_event = false`, any `n >= 1` invocations of `wdt_callback`
in succession make exactly one `wdt_feed` call and one `printk` call in total,
and every invocation after the first changes no state and emits nothing. -/
theorem wdt_callback_one_shot (ch : Int) (n : Nat) (g : Globals)
    (hg : g.handled_event = false) (hn : 1 ≤ n) :
    feedCount (wdt_callback_n ch n g).2 = 1
    ∧ printkCount (wdt_callback_n ch n g).2 = 1
    ∧ (wdt_callback_n ch n g).2 = (wdt_callback ch g).2
    ∧ (wdt_callback_n ch n g).1 = (wdt_callback ch g).1
    ∧ ∀ k, 1 ≤ k →
        wdt_callback ch (wdt_callback_n ch k g).1 = ((wdt_callback_n ch k g).1, []) := by
  have first : wdt_callback ch g
      = ({ g with handled_event := true },
          [Event.wdt_feed ch,
           Event.printk "Handled things..ready to reset using watchdog\n" []]) := by
    simp [wdt_callback, hg]
  have many : ∀ k, 1 ≤ k → wdt_callback_n ch k g = wdt_callback ch g := by
    intro k hk
    obtain ⟨m, rfl⟩ : ∃ m, k = m + 1 := ⟨k - 1, by omega⟩
    have h2 := wdt_callback_n_handled ch m (wdt_callback ch g).1 (by rw [first])
    simp only [wdt_callback_n, h2, List.append_nil]
  refine ⟨?_, ?_, ?_, ?_, ?_⟩
  · rw [many n hn, first]; simp [feedCount]
  · rw [many n hn, first]; simp [printkCount]
  · rw [many n hn]
  · rw [many n hn]
  · intro k hk
    rw [many k hk]
    exact wdt_callback_handled ch _ (by rw [first])

/-- C4 at `n = 2`: two invocations from the initial latch state. -/
theorem wdt_callback_one_shot_twice :
    feedCount (wdt_callback_n 0 2 Globals.boot).2 = 1
    ∧ printkCount (wdt_callback_n 0 2 Globals.boot).2 = 1
    ∧ (wdt_callback_n 0 2 Globals.boot).2 = (wdt_callback 0 Globals.boot).2
    ∧ (wdt_callback_n 0 2 Globals.boot).1 = (wdt_callback 0 Globals.boot).1
    ∧ ∀ k, 1 ≤ k →
        wdt_callback 0 (wdt_callback_n 0 k Globals.boot).1
          = ((wdt_callback_n 0 k Globals.boot).1, []) :=
  wdt_callback_one_shot 0 2 Globals.boot rfl (by decide)

theorem feedCount_print_reset_reason (rr : Nat) : feedCount (print_reset_reason rr) = 0 := by
  simp only [print_reset_reason, feedCount_append]
  repeat' split
  all_goals simp [feedCount]

theorem feedCount_watchdog_start (E : Int) (rr : Nat) (d : DriverOutcome) :
    feedCount (watchdog_start E rr d).1 = 0 := by
  simp only [watchdog_start]
  repeat' split
  all_goals simp only [feedCount_append, feedCount_print_reset_reason]
  all_goals rfl

/-! ## Start of the supervisor -/

theorem installCalls_append (xs ys : List Event) :
    installCalls (xs ++ ys) = installCalls xs ++ installCalls ys := by
  induction xs with
  | nil => rfl
  | cons e es ih => cases e <;> simp [installCalls, ih]

theorem installCalls_print_reset_reason (rr : Nat) : installCalls (print_reset_reason rr) = [] := by
  simp only [print_reset_reason, installCalls_append]
  repeat' split
  all_goals rfl

/-- C5: for every outcome of the driver calls, `watchdog()` calls
`wdt_install_timeout` a second time, with `callback = NULL`, exactly when the
first call returned `-ENOTSUP`, and never a third time; it enters the polling
loop exactly when the device was found, the last install returned a
non-negative channel id and `wdt_setup` returned a non-negative value, the
channel id of the loop being that of the last install; and before the loop, in
particular when it returns, it never calls `wdt_feed`. -/
theorem watchdog_start_spec (ENOTSUP : Int) (rr : Nat) (d : DriverOutcome) :
    installCalls (watchdog_start ENOTSUP rr d).1
        = (if d.wdt_found = false then []
           else if d.install1 = -ENOTSUP then
             [Event.wdt_install_timeout true 0 WDT_WINDOW_MAX,
              Event.wdt_install_timeout false 0 WDT_WINDOW_MAX]
           else [Event.wdt_install_timeout true 0 WDT_WINDOW_MAX])
    ∧ ((watchdog_start ENOTSUP rr d).2.isSome = true ↔
        (d.wdt_found = true
          ∧ 0 ≤ (if d.install1 = -ENOTSUP then d.install2 else d.install1)
          ∧ 0 ≤ d.setup))
    ∧ (∀ ch, (watchdog_start ENOTSUP rr d).2 = some ch →
        ch = (if d.install1 = -ENOTSUP then d.install2 else d.install1))
    ∧ feedCount (watchdog_start ENOTSUP rr d).1 = 0 := by
  refine ⟨?_, ?_, ?_, feedCount_watchdog_start ENOTSUP rr d⟩
  · simp only [watchdog_start]
    cases hf : d.wdt_found
    · simp only [Bool.not_false, if_true, installCalls_append, installCalls_print_reset_reason]
      rfl
    · by_cases h1 : d.install1 = -ENOTSUP
      · simp only [Bool.not_true, Bool.false_eq_true, if_false, h1, if_true]
        by_cases h2 : d.install2 < 0
        · simp only [h2, if_true, installCalls_append, installCalls_print_reset_reason]
          rfl
        · by_cases h3 : d.setup < 0
          · simp only [h2, h3, if_true, if_false, installCalls_append,
              installCalls_print_reset_reason]
            rfl
          · simp only [h2, h3, if_false, installCalls_append, installCalls_print_reset_reason]
            rfl
      · simp only [Bool.not_true, Bool.false_eq_true, if_false, h1]
        by_cases h2 : d.install1 < 0
        · simp only [h2, if_true, installCalls_append, installCalls_print_reset_reason]
          rfl
        · by_cases h3 : d.setup < 0
          · simp only [h2, h3, if_true, if_false, installCalls_append,
              installCalls_print_reset_reason]
            rfl
          · simp only [h2, h3, if_false, installCalls_append, installCalls_print_reset_reason]
            rfl
  · simp only [watchdog_start]
    cases hf : d.wdt_found
    · simp
    · by_cases h1 : d.install1 = -ENOTSUP
      · simp only [Bool.not_true, Bool.false_eq_true, if_false, h1, if_true]
        by_cases h2 : d.install2 < 0
        · simp [h2]
        · by_cases h3 : d.setup < 0
          · simp [h2, h3]
          · simp [h2, h3]
            omega
      · simp only [Bool.not_true, Bool.false_eq_true, if_false, h1]
        by_cases h2 : d.install1 < 0
        · simp [h2]
        · by_cases h3 : d.setup < 0
          · simp [h2, h3]
          · simp [h2, h3]
            omega
  · intro ch
    simp only [watchdog_start]
    cases hf : d.wdt_found
    · simp
    · by_cases h1 : d.install1 = -ENOTSUP
      · simp only [Bool.not_true, Bool.false_eq_true, if_false, h1, if_true]
        by_cases h2 : d.install2 < 0
        · simp [h2]
        · by_cases h3 : d.setup < 0
          · simp [h2, h3]
          · simp [h2, h3]
            exact fun h => h.symm
      · simp only [Bool.not_true, Bool.false_eq_true, if_false, h1]
        by_cases h2 : d.install1 < 0
        · simp [h2]
        · by_cases h3 : d.setup < 0
          · simp [h2, h3]
          · simp [h2, h3]
            exact fun h => h.symm

/-! ## Boot diagnostics -/

/-- C6, at the failing inputs: with only the software-request bit `0x04` set,
`print_reset_reason` lists both the software and the power-up cause; with only
bit `0x00010000` or only bit `0x08` set it lists no cause at all; and for every
register value the power-up line is listed exactly when the software line is. -/
theorem print_reset_reason_powerup_follows_sreq :
    print_reset_reason 0x04
        = [Event.printk "Reset reasons:" [],
           Event.printk "- Reset from software\n" [],
           Event.printk "- Reset from powerup\n" [],
           Event.write_RESETREAS 0xffffffff]
    ∧ print_reset_reason NRF_POWER_RESETREAS_OFF_MASK
        = [Event.printk "Reset reasons:" [], Event.write_RESETREAS 0xffffffff]
    ∧ print_reset_reason NRF_POWER_RESETREAS_LOCKUP_MASK
        = [Event.printk "Reset reasons:" [], Event.write_RESETREAS 0xffffffff]
    ∧ ∀ rr, (Event.printk "- Reset from powerup\n" [] ∈ print_reset_reason rr
              ↔ Event.printk "- Reset from software\n" [] ∈ print_reset_reason rr) := by
  refine ⟨by decide, by decide, by decide, ?_⟩
  intro rr
  by_cases h4 : 0 ≠ rr &&& NRF_POWER_RESETREAS_SREQ_MASK
  · have a : Event.printk "- Reset from powerup\n" [] ∈ print_reset_reason rr := by
      simp [print_reset_reason, h4]
    have b : Event.printk "- Reset from software\n" [] ∈ print_reset_reason rr := by
      simp [print_reset_reason, h4]
    exact ⟨fun _ => b, fun _ => a⟩
  · have a : Event.printk "- Reset from powerup\n" [] ∉ print_reset_reason rr := by
      simp only [print_reset_reason, h4, if_false]
      repeat' split
      all_goals decide
    have b : Event.printk "- Reset from software\n" [] ∉ print_reset_reason rr := by
      simp only [print_reset_reason, h4, if_false]
      repeat' split
      all_goals decide
    exact ⟨fun h => absurd h a, fun h => absurd h b⟩

/-! ## Gate isolation -/

theorem blink1_for_spec (n : Nat) (g : Globals) :
    (blink1_for (n + 1) g).1 = { g with thread2_flag := true } := by
  induction n generalizing g with
  | zero => rfl
  | succ n ih =>
      rw [blink1_for]
      simp only []
      rw [ih]

/-- C9: for two states that differ only in the gate `button_flag`, an iteration
of `blink0` and an iteration of `uart_out` have the same effect in both: the
same trace, the same new `cnt`, the same new globals up to the gate, which
they leave as it is; each sleeps 100 ms and raises its own flag.  Only the
effect of `blink1` on `thread2_flag` depends on the gate: disabled, the
iteration changes no global; enabled, it sets `thread2_flag` and changes no
other global.  Likewise `blink0` changes no global but `thread1_flag` and
`uart_out` none but `thread3_flag`. -/
theorem gate_affects_only_blink1 (g : Globals) (b : Bool) (cnt : Int) :
    ((blink0_iter cnt { g with button_flag := b }).1 = (blink0_iter cnt g).1
      ∧ (blink0_iter cnt { g with button_flag := b }).2.2 = (blink0_iter cnt g).2.2
      ∧ (blink0_iter cnt { g with button_flag := b }).2.1
          = { (blink0_iter cnt g).2.1 with button_flag := b }
      ∧ (blink0_iter cnt g).2.1.button_flag = g.button_flag
      ∧ sleepTotal (blink0_iter cnt g).2.2 = 100
      ∧ (blink0_iter cnt g).2.1.thread1_flag = true)
    ∧ ((uart_out_iter cnt { g with button_flag := b }).1 = (uart_out_iter cnt g).1
      ∧ (uart_out_iter cnt { g with button_flag := b }).2.2 = (uart_out_iter cnt g).2.2
      ∧ (uart_out_iter cnt { g with button_flag := b }).2.1
          = { (uart_out_iter cnt g).2.1 with button_flag := b }
      ∧ (uart_out_iter cnt g).2.1.button_flag = g.button_flag
      ∧ sleepTotal (uart_out_iter cnt g).2.2 = 100
      ∧ (uart_out_iter cnt g).2.1.thread3_flag = true)
    ∧ (blink1_iter cnt { g with button_flag := false }).2.1
          = { g with button_flag := false }
    ∧ (blink1_iter cnt { g with button_flag := false }).2.1.thread2_flag = g.thread2_flag
    ∧ (blink1_iter cnt { g with button_flag := true }).2.1.thread2_flag = true
    ∧ (blink0_iter cnt g).2.1 = { g with thread1_flag := true }
    ∧ (uart_out_iter cnt g).2.1 = { g with thread3_flag := true }
    ∧ (blink1_iter cnt { g with button_flag := true }).2.1
          = { g with button_flag := true, thread2_flag := true } := by
  refine ⟨⟨rfl, rfl, rfl, rfl, rfl, rfl⟩, ⟨rfl, rfl, rfl, rfl, ?_, rfl⟩, rfl, rfl, ?_,
    rfl, rfl, ?_⟩
  · simp only [uart_out_iter]
    split <;> rfl
  · simp only [blink1_iter, if_true, blink1_for_spec]
  · simp only [blink1_iter, if_true, blink1_for_spec]

/-! ## Who changes a heartbeat flag -/

theorem step_flag (ch : Int) (st : Step) (s : Sys) (f : Flag) :
    (s.g.flag f = false → (step ch st s).1.g.flag f = true → st = f.owner)
    ∧ (s.g.flag f = true → (step ch st s).1.g.flag f = false →
        st = Step.poll ∧ s.g.thread1_flag = true ∧ s.g.thread2_flag = true
          ∧ s.g.thread3_flag = true) := by
  obtain ⟨⟨bf, f1, f2, f3, he, ru⟩, c0, c1, c3⟩ := s
  cases st with
  | blink0 => cases f <;> simp [step, blink0_iter, Globals.flag, Flag.owner]
  | blink1 =>
      cases bf <;> cases f <;>
        simp [step, blink1_iter, blink1_for_spec, Globals.flag, Flag.owner]
  | uart_out => cases f <;> simp [step, uart_out_iter, Globals.flag, Flag.owner]
  | button_read val =>
      cases val <;> cases ru <;> cases f <;>
        simp [step, button_read_iter, Globals.flag, Flag.owner]
  | poll =>
      cases f1 <;> cases f2 <;> cases f3 <;> cases f <;>
        simp [step, watchdog_poll, Globals.flag, Flag.owner]
  | wdt_callback =>
      cases he <;> cases f <;> simp [step, wdt_callback, Globals.flag, Flag.owner]

/-- C10: in every step of the system (a loop iteration of `blink0`, `blink1`,
`uart_out` or `button_read`, a supervisor poll, or a `wdt_callback`
invocation), a heartbeat flag goes from false to true only in a step of its
owning worker, and from true to false only in a supervisor poll at which all
three flags were true. -/
theorem flag_raised_by_owner_cleared_by_feeding_poll (ch : Int) (st : Step) (s : Sys)
    (f : Flag) :
    (s.g.flag f = false ∧ (step ch st s).1.g.flag f = true → st = f.owner)
    ∧ (s.g.flag f = true ∧ (step ch st s).1.g.flag f = false →
        st = Step.poll ∧ s.g.thread1_flag = true ∧ s.g.thread2_flag = true
          ∧ s.g.thread3_flag = true) :=
  ⟨fun h => (step_flag ch st s f).1 h.1 h.2, fun h => (step_flag ch st s f).2 h.1 h.2⟩

/-! ## Polls without a heartbeat -/

theorem feedTimes_stamp_nil (t : Nat) (es : List Event) (h : feedCount es = 0) :
    feedTimes (stamp t es) = [] := by
  induction es with
  | nil => rfl
  | cons e es ih =>
      cases e <;> simp_all [stamp, feedTimes, feedCount]

theorem mem_stamp (t : Nat) (e : Event) (es : List Event) :
    e ∈ (stamp t es).map Prod.snd ↔ e ∈ es := by
  simp [stamp]

theorem tstep_keeps_flag_down (P : Platform) (a : Action) (s : Timed) (f : Flag)
    (h : s.g.flag f = false) (hno : Event.heartbeat f ∉ (tstep P a s).2.map Prod.snd) :
    (tstep P a s).1.g.flag f = false := by
  cases a with
  | blink0 =>
      simp only [tstep] at hno ⊢
      split
      · rename_i hr
        simp only [hr, if_true, mem_stamp] at hno
        cases hpc : s.blink0_pc <;> cases f <;>
          simp_all [blink0_segment, Globals.flag]
      · exact h
  | blink1 =>
      simp only [tstep] at hno ⊢
      split
      · rename_i hr
        simp only [hr, if_true, mem_stamp] at hno
        cases hpc : s.blink1_pc <;> cases f <;> cases hb : s.g.button_flag <;>
          simp_all [blink1_segment, blink1_head, Globals.flag] <;>
          split <;> simp_all
      · exact h
  | uart_out =>
      simp only [tstep] at hno ⊢
      split
      · rename_i hr
        simp only [hr, if_true, mem_stamp] at hno
        cases hpc : s.uart_pc <;> cases f <;>
          simp_all [uart_out_segment, uart_out_head, Globals.flag]
      · exact h
  | button_read val =>
      simp only [tstep]
      split
      · cases hpc : s.button_pc <;> cases val <;> cases hr : s.g.thread_is_running <;>
          cases f <;> simp_all [button_read_segment, button_read_head, Globals.flag]
      · exact h
  | watchdog =>
      simp only [tstep]
      split
      · cases hpc : s.watchdog_pc with
        | start =>
            simp only [watchdog_segment, hpc]
            split <;> exact h
        | polling ch =>
            simp only [watchdog_segment, hpc]
            split
            · cases f <;> rfl
            · exact h
        | returned =>
            simp only [watchdog_segment, hpc]
            exact h
      · exact h
  | advance =>
      simp only [tstep]
      split <;> exact h

theorem trun_keeps_flag_down (P : Platform) (tr : List Action) (s : Timed) (f : Flag)
    (h : s.g.flag f = false) (hno : Event.heartbeat f ∉ (trun P tr s).2.map Prod.snd) :
    (trun P tr s).1.g.flag f = false := by
  induction tr generalizing s with
  | nil => exact h
  | cons a rest ih =>
      simp only [trun, List.map_append, List.mem_append, not_or] at hno ⊢
      exact ih _ (tstep_keeps_flag_down P a s f h hno.1) hno.2

theorem poll_starved (P : Platform) (s : Timed) (f : Flag) (h : s.g.flag f = false) :
    feedTimes (tstep P Action.watchdog s).2 = [] := by
  simp only [tstep]
  split
  · cases hpc : s.watchdog_pc with
    | start =>
        simp only [watchdog_segment, hpc]
        have hnf := feedCount_watchdog_start P.ENOTSUP P.rr P.d
        rcases hst : watchdog_start P.ENOTSUP P.rr P.d with ⟨t, _ | ch⟩
        · rw [hst] at hnf
          exact feedTimes_stamp_nil _ _ hnf
        · rw [hst] at hnf
          exact feedTimes_stamp_nil _ _ (by simpa [feedCount_append, feedCount] using hnf)
    | polling ch =>
        simp only [watchdog_segment, hpc]
        split
        · rename_i hall
          simp only [Bool.and_eq_true] at hall
          cases f <;> simp_all [Globals.flag]
        · rfl
    | returned =>
        simp only [watchdog_segment, hpc]
        rfl
  · rfl

theorem poll_fed_clears (P : Platform) (s : Timed) (f : Flag)
    (h : feedTimes (tstep P Action.watchdog s).2 ≠ []) :
    (tstep P Action.watchdog s).1.g.flag f = false := by
  cases hf : s.g.flag f with
  | false =>
      exact absurd (poll_starved P s f hf) h
  | true =>
      simp only [tstep] at h ⊢
      split
      · rename_i hr
        simp only [hr, if_true] at h
        cases hpc : s.watchdog_pc with
        | start =>
            exfalso
            apply h
            simp only [watchdog_segment, hpc]
            have hnf := feedCount_watchdog_start P.ENOTSUP P.rr P.d
            rcases hst : watchdog_start P.ENOTSUP P.rr P.d with ⟨t, _ | ch⟩
            · rw [hst] at hnf
              exact feedTimes_stamp_nil _ _ hnf
            · rw [hst] at hnf
              exact feedTimes_stamp_nil _ _ (by simpa [feedCount_append, feedCount] using hnf)
        | polling ch =>
            simp only [watchdog_segment, hpc] at h ⊢
            split
            · cases f <;> rfl
            · rename_i hall
              simp only [hall] at h
              exact absurd rfl h
        | returned =>
            simp [watchdog_segment, hpc, stamp, feedTimes] at h
      · rename_i hr
        simp only [hr, if_false] at h
        exact absurd rfl h

/-- C2, as stated, fails.  At the instant 100 `blink0` stores to `thread1_flag`
and the supervisor then polls: two flags are down, it does not feed, and
`thread1_flag` stays raised.  `blink1` and `uart_out` then store to their
flags, `blink0` makes no store, and the next poll, at 150, calls `wdt_feed`. -/
theorem poll_feeds_on_report_from_earlier_cycle :
    all_ready Platform.ok
        (early_report ++ [Action.watchdog] ++ late_reports ++ [Action.watchdog])
        Timed.boot = true
    ∧ feedTimes (tstep Platform.ok Action.watchdog
        (trun Platform.ok early_report Timed.boot).1).2 = []
    ∧ Event.heartbeat Flag.thread1 ∉
        (trun Platform.ok late_reports
          (tstep Platform.ok Action.watchdog
            (trun Platform.ok early_report Timed.boot).1).1).2.map Prod.snd
    ∧ feedTimes (tstep Platform.ok Action.watchdog
        (trun Platform.ok late_reports
          (tstep Platform.ok Action.watchdog
            (trun Platform.ok early_report Timed.boot).1).1).1).2 = [150] := by
  decide

/-- C2, amended: for every schedule of the threads, each running from one
`k_msleep` to the next, if a worker made no progress report (no store to its
heartbeat flag) since boot or since the last poll that called `wdt_feed`, then
a poll does not call `wdt_feed`. -/
theorem no_feed_without_report_since_last_feed (P : Platform) (s0 : Timed)
    (tr : List Action) (f : Flag)
    (hstart : s0.g = Globals.boot
      ∨ ∃ s, s0 = (tstep P Action.watchdog s).1
          ∧ feedTimes (tstep P Action.watchdog s).2 ≠ [])
    (hno : Event.heartbeat f ∉ (trun P tr s0).2.map Prod.snd) :
    feedTimes (tstep P Action.watchdog (trun P tr s0).1).2 = [] := by
  have h0 : s0.g.flag f = false := by
    rcases hstart with h | ⟨s, rfl, hfed⟩
    · rw [h]; cases f <;> rfl
    · exact poll_fed_clears P s f hfed
  exact poll_starved P _ f (trun_keeps_flag_down P tr s0 f h0 hno)

/-- C2, amended, on a run: the poll at 100 feeds; until the poll at 200 only
`blink1` and `uart_out` store to their flags, and that poll does not feed. -/
theorem no_feed_without_report_since_last_feed_example :
    feedTimes (tstep Platform.ok Action.watchdog
        (trun Platform.ok all_reports Timed.boot).1).2 = [100]
    ∧ Event.heartbeat Flag.thread1 ∉
        (trun Platform.ok reports_without_blink0
          (tstep Platform.ok Action.watchdog
            (trun Platform.ok all_reports Timed.boot).1).1).2.map Prod.snd
    ∧ Event.heartbeat Flag.thread2 ∈
        (trun Platform.ok reports_without_blink0
          (tstep Platform.ok Action.watchdog
            (trun Platform.ok all_reports Timed.boot).1).1).2.map Prod.snd
    ∧ (trun Platform.ok reports_without_blink0
          (tstep Platform.ok Action.watchdog
            (trun Platform.ok all_reports Timed.boot).1).1).1.now = 200
    ∧ feedTimes (tstep Platform.ok Action.watchdog
        (trun Platform.ok reports_without_blink0
          (tstep Platform.ok Action.watchdog
            (trun Platform.ok all_reports Timed.boot).1).1).1).2 = [] :=
  ⟨by decide, by decide, by decide, by decide,
    no_feed_without_report_since_last_feed Platform.ok _ reports_without_blink0 Flag.thread1
      (Or.inr ⟨(trun Platform.ok all_reports Timed.boot).1, rfl, by decide⟩) (by decide)⟩

/-! ## Time between heartbeats -/

theorem heartbeatGaps_sleep (f : Flag) (acc : Option Nat) (ms : Nat) (es : List Event) :
    heartbeatGaps f acc (Event.k_msleep ms :: es) = heartbeatGaps f (acc.map (· + ms)) es :=
  rfl

theorem heartbeatGaps_printk (f : Flag) (acc : Option Nat) (fmt : String) (args : List Int)
    (es : List Event) :
    heartbeatGaps f acc (Event.printk fmt args :: es) = heartbeatGaps f acc es :=
  rfl

theorem heartbeatGaps_gpio (f : Flag) (acc : Option Nat) (led : Nat) (v : Int)
    (es : List Event) :
    heartbeatGaps f acc (Event.gpio_pin_set led v :: es) = heartbeatGaps f acc es :=
  rfl

theorem heartbeatGaps_beat_none (f : Flag) (es : List Event) :
    heartbeatGaps f none (Event.heartbeat f :: es) = heartbeatGaps f (some 0) es := by
  simp [heartbeatGaps]

theorem heartbeatGaps_beat_some (f : Flag) (a : Nat) (es : List Event) :
    heartbeatGaps f (some a) (Event.heartbeat f :: es) = a :: heartbeatGaps f (some 0) es := by
  simp [heartbeatGaps]

theorem gaps_blink0 (n : Nat) (cnt : Int) (g : Globals) :
    heartbeatGaps Flag.thread1 (some 0) (loop blink0_iter n cnt g).2.2
      = List.replicate n 100 := by
  induction n generalizing cnt g with
  | zero => rfl
  | succ n ih =>
      simp only [loop, blink0_iter, List.cons_append, List.nil_append, heartbeatGaps_sleep,
        heartbeatGaps_gpio, heartbeatGaps_beat_some, Option.map, Nat.zero_add, ih,
        List.replicate_succ]

theorem gaps_uart_out (n : Nat) (cnt : Int) (g : Globals) :
    heartbeatGaps Flag.thread3 (some 0) (loop uart_out_iter n cnt g).2.2
      = List.replicate n 100 := by
  induction n generalizing cnt g with
  | zero => rfl
  | succ n ih =>
      by_cases hc : cnt ≥ 10
      · simp only [loop, uart_out_iter, hc, if_true, List.cons_append, List.nil_append,
          heartbeatGaps_sleep, heartbeatGaps_printk, heartbeatGaps_beat_some, Option.map,
          Nat.zero_add, ih, List.replicate_succ]
      · simp only [loop, uart_out_iter, hc, if_false, List.cons_append, List.nil_append,
          List.append_nil, heartbeatGaps_sleep, heartbeatGaps_printk, heartbeatGaps_beat_some,
          Option.map, Nat.zero_add, ih, List.replicate_succ]

theorem blink1_for_trace (g : Globals) :
    (blink1_for 8 g).2
      = [Event.k_msleep 100, Event.heartbeat Flag.thread2,
         Event.k_msleep 100, Event.heartbeat Flag.thread2,
         Event.k_msleep 100, Event.heartbeat Flag.thread2,
         Event.k_msleep 100, Event.heartbeat Flag.thread2,
         Event.k_msleep 100, Event.heartbeat Flag.thread2,
         Event.k_msleep 100, Event.heartbeat Flag.thread2,
         Event.k_msleep 100, Event.heartbeat Flag.thread2,
         Event.k_msleep 100, Event.heartbeat Flag.thread2] :=
  rfl

theorem gaps_blink1 (n : Nat) (cnt : Int) (g : Globals) (hg : g.button_flag = true) :
    heartbeatGaps Flag.thread2 (some 100) (loop blink1_iter n cnt g).2.2
      = (List.replicate n (200 :: List.replicate 7 100)).flatten := by
  induction n generalizing cnt g with
  | zero => rfl
  | succ n ih =>
      have hg2 : (blink1_for 8 g).1.button_flag = true := by
        rw [blink1_for_spec]
        exact hg
      simp only [loop, blink1_iter, hg, if_true, blink1_for_trace, List.cons_append,
        List.nil_append, heartbeatGaps_sleep, heartbeatGaps_gpio, heartbeatGaps_beat_some,
        Option.map, Nat.reduceAdd, ih _ _ hg2, List.replicate_succ, List.flatten_cons,
        List.replicate_zero]

/-- C8, as stated, fails: two consecutive stores to `thread1_flag` by `blink0`
are 100 ms of `k_msleep` apart, twice the 50 ms polling interval; so are those
of `uart_out`; those of `blink1` are 100 ms apart within an iteration and
200 ms apart across two iterations. -/
theorem heartbeat_gap_exceeds_poll_interval :
    heartbeatGaps Flag.thread1 none (loop blink0_iter 2 0 Globals.boot).2.2 = [100]
    ∧ heartbeatGaps Flag.thread3 none (loop uart_out_iter 2 1 Globals.boot).2.2 = [100]
    ∧ heartbeatGaps Flag.thread2 none (loop blink1_iter 2 0 Globals.boot).2.2
        = [100, 100, 100, 100, 100, 100, 100, 200, 100, 100, 100, 100, 100, 100, 100]
    ∧ ¬ (100 ≤ POLL_MS) := by
  decide

/-- C8, amended: under normal operation (gate enabled), the `k_msleep` times
between the consecutive stores to a worker's heartbeat flag are, over `n`
iterations of `blink0` and of `uart_out`, `n - 1` gaps of 100 ms each, and over
`n + 1` iterations of `blink1`, seven gaps of 100 ms followed `n` times by a gap
of 200 ms and seven gaps of 100 ms: every gap is longer than the supervisor's
polling interval of 50 ms and shorter than the watchdog window of 500 ms. -/
theorem heartbeat_gap_within_window (n : Nat) (cnt : Int) (g : Globals) :
    heartbeatGaps Flag.thread1 none
        (loop blink0_iter n cnt { g with button_flag := true }).2.2
      = List.replicate (n - 1) 100
    ∧ heartbeatGaps Flag.thread3 none
        (loop uart_out_iter n cnt { g with button_flag := true }).2.2
      = List.replicate (n - 1) 100
    ∧ heartbeatGaps Flag.thread2 none
        (loop blink1_iter (n + 1) cnt { g with button_flag := true }).2.2
      = List.replicate 7 100 ++ (List.replicate n (200 :: List.replicate 7 100)).flatten
    ∧ POLL_MS < 100 ∧ 200 < WDT_WINDOW_MAX := by
  refine ⟨?_, ?_, ?_, by decide, by decide⟩
  · cases n with
    | zero => rfl
    | succ n =>
        simp only [loop, blink0_iter, List.cons_append, List.nil_append, heartbeatGaps_sleep,
          heartbeatGaps_gpio, heartbeatGaps_beat_none, Option.map, gaps_blink0,
          Nat.add_sub_cancel]
  · cases n with
    | zero => rfl
    | succ n =>
        by_cases hc : cnt ≥ 10
        · simp only [loop, uart_out_iter, hc, if_true, List.cons_append, List.nil_append,
            heartbeatGaps_sleep, heartbeatGaps_printk, heartbeatGaps_beat_none, Option.map,
            gaps_uart_out, Nat.add_sub_cancel]
        · simp only [loop, uart_out_iter, hc, if_false, List.cons_append, List.nil_append,
            List.append_nil, heartbeatGaps_sleep, heartbeatGaps_printk,
            heartbeatGaps_beat_none, Option.map, gaps_uart_out, Nat.add_sub_cancel]
  · simp only [loop, blink1_iter, if_true, blink1_for_trace, List.cons_append,
      List.nil_append, heartbeatGaps_sleep, heartbeatGaps_gpio, heartbeatGaps_beat_none,
      heartbeatGaps_beat_some, Option.map, Nat.reduceAdd, List.replicate_succ,
      List.replicate_zero]
    rw [gaps_blink1 n _ _ (by rw [blink1_for_spec])]
    simp only [List.replicate_succ, List.replicate_zero]

/-! ## The timed model: no feed long after the gate is disabled -/

theorem feedTimes_append (xs ys : List (Nat × Event)) :
    feedTimes (xs ++ ys) = feedTimes xs ++ feedTimes ys := by
  induction xs with
  | nil => rfl
  | cons x xs ih =>
      obtain ⟨t, e⟩ := x
      cases e <;> simp [feedTimes, ih]

theorem Timed.boot_WF : Timed.boot.WF := by
  simp [Timed.WF, Timed.boot]

theorem tstep_WF_blink0 (P : Platform) (s : Timed) (h : s.WF) :
    (tstep P Action.blink0 s).1.WF := by
  obtain ⟨now, g, pc0, w0, c0, pc1, w1, c1, pc3, w3, c3, pcb, wb, pcw, ww⟩ := s
  simp only [Timed.WF, Timed.watchdog_live] at h ⊢
  obtain ⟨⟨h01, h02, h03⟩, ⟨h11, h12, h13, h14⟩, ⟨h31, h32, h33⟩, hb, hw⟩ := h
  simp only [tstep]
  split
  · cases pc0 <;> simp only [blink0_segment] <;>
      refine ⟨⟨by omega, by omega, by simp⟩, ⟨by omega, by omega, h13, h14⟩,
        ⟨by omega, by omega, h33⟩, by omega, hw⟩
  · exact ⟨⟨h01, h02, h03⟩, ⟨h11, h12, h13, h14⟩, ⟨h31, h32, h33⟩, hb, hw⟩

theorem tstep_WF_blink1 (P : Platform) (s : Timed) (h : s.WF) :
    (tstep P Action.blink1 s).1.WF := by
  obtain ⟨now, g, pc0, w0, c0, pc1, w1, c1, pc3, w3, c3, pcb, wb, pcw, ww⟩ := s
  simp only [Timed.WF, Timed.watchdog_live] at h ⊢
  obtain ⟨⟨h01, h02, h03⟩, ⟨h11, h12, h13, h14⟩, ⟨h31, h32, h33⟩, hb, hw⟩ := h
  simp only [tstep]
  split
  · cases pc1 with
    | start =>
        simp only [blink1_segment, blink1_head]
        split <;> dsimp only <;>
          exact ⟨⟨h01, h02, h03⟩, ⟨by omega, by omega, by simp, by simp⟩,
            ⟨h31, h32, h33⟩, hb, hw⟩
    | tail =>
        simp only [blink1_segment, blink1_head]
        split <;> dsimp only <;>
          exact ⟨⟨h01, h02, h03⟩, ⟨by omega, by omega, by simp, by simp⟩,
            ⟨h31, h32, h33⟩, hb, hw⟩
    | in_for i =>
        have hi := h14 i rfl
        simp only [blink1_segment]
        split
        · dsimp only
          refine ⟨⟨h01, h02, h03⟩, ⟨by omega, by omega, by simp, ?_⟩, ⟨h31, h32, h33⟩, hb, hw⟩
          intro j hj
          simp only [Blink1Pc.in_for.injEq] at hj
          omega
        · dsimp only
          exact ⟨⟨h01, h02, h03⟩, ⟨by omega, by omega, by simp, by simp⟩,
            ⟨h31, h32, h33⟩, hb, hw⟩
  · exact ⟨⟨h01, h02, h03⟩, ⟨h11, h12, h13, h14⟩, ⟨h31, h32, h33⟩, hb, hw⟩

theorem tstep_WF_uart_out (P : Platform) (s : Timed) (h : s.WF) :
    (tstep P Action.uart_out s).1.WF := by
  obtain ⟨now, g, pc0, w0, c0, pc1, w1, c1, pc3, w3, c3, pcb, wb, pcw, ww⟩ := s
  simp only [Timed.WF, Timed.watchdog_live] at h ⊢
  obtain ⟨⟨h01, h02, h03⟩, ⟨h11, h12, h13, h14⟩, ⟨h31, h32, h33⟩, hb, hw⟩ := h
  simp only [tstep]
  split
  · cases pc3 <;> simp only [uart_out_segment, uart_out_head] <;>
      exact ⟨⟨h01, h02, h03⟩, ⟨h11, h12, h13, h14⟩, ⟨by omega, by omega, by simp⟩, hb, hw⟩
  · exact ⟨⟨h01, h02, h03⟩, ⟨h11, h12, h13, h14⟩, ⟨h31, h32, h33⟩, hb, hw⟩

theorem tstep_WF_button_read (P : Platform) (val : Bool) (s : Timed) (h : s.WF) :
    (tstep P (Action.button_read val) s).1.WF := by
  obtain ⟨now, g, pc0, w0, c0, pc1, w1, c1, pc3, w3, c3, pcb, wb, pcw, ww⟩ := s
  simp only [Timed.WF, Timed.watchdog_live] at h ⊢
  obtain ⟨⟨h01, h02, h03⟩, ⟨h11, h12, h13, h14⟩, ⟨h31, h32, h33⟩, hb, hw⟩ := h
  simp only [tstep]
  split
  · cases pcb <;> simp only [button_read_segment, button_read_head] <;>
      (try split) <;> (try split) <;> (try dsimp only) <;>
      exact ⟨⟨h01, h02, h03⟩, ⟨h11, h12, h13, h14⟩, ⟨h31, h32, h33⟩, by omega, hw⟩
  · exact ⟨⟨h01, h02, h03⟩, ⟨h11, h12, h13, h14⟩, ⟨h31, h32, h33⟩, hb, hw⟩

theorem tstep_WF_watchdog (P : Platform) (s : Timed) (h : s.WF) :
    (tstep P Action.watchdog s).1.WF := by
  obtain ⟨now, g, pc0, w0, c0, pc1, w1, c1, pc3, w3, c3, pcb, wb, pcw, ww⟩ := s
  simp only [Timed.WF, Timed.watchdog_live] at h ⊢
  obtain ⟨⟨h01, h02, h03⟩, ⟨h11, h12, h13, h14⟩, ⟨h31, h32, h33⟩, hb, hw⟩ := h
  simp only [tstep]
  split
  · cases pcw with
    | start =>
        simp only [watchdog_segment]
        split
        · dsimp only
          exact ⟨⟨h01, h02, h03⟩, ⟨h11, h12, h13, h14⟩, ⟨h31, h32, h33⟩, hb, by simp⟩
        · dsimp only
          refine ⟨⟨h01, h02, h03⟩, ⟨h11, h12, h13, h14⟩, ⟨h31, h32, h33⟩, hb, ?_⟩
          intro _
          simp [POLL_MS]
    | polling ch =>
        simp only [watchdog_segment]
        split <;>
        · dsimp only
          refine ⟨⟨h01, h02, h03⟩, ⟨h11, h12, h13, h14⟩, ⟨h31, h32, h33⟩, hb, ?_⟩
          intro _
          simp [POLL_MS]
    | returned =>
        simp only [watchdog_segment]
        exact ⟨⟨h01, h02, h03⟩, ⟨h11, h12, h13, h14⟩, ⟨h31, h32, h33⟩, hb, by simp⟩
  · exact ⟨⟨h01, h02, h03⟩, ⟨h11, h12, h13, h14⟩, ⟨h31, h32, h33⟩, hb, hw⟩

theorem tstep_WF_advance (P : Platform) (s : Timed) (h : s.WF) :
    (tstep P Action.advance s).1.WF := by
  obtain ⟨now, g, pc0, w0, c0, pc1, w1, c1, pc3, w3, c3, pcb, wb, pcw, ww⟩ := s
  simp only [Timed.WF, Timed.watchdog_live] at h ⊢
  obtain ⟨⟨h01, h02, h03⟩, ⟨h11, h12, h13, h14⟩, ⟨h31, h32, h33⟩, hb, hw⟩ := h
  simp only [tstep]
  split
  · exact ⟨⟨h01, h02, h03⟩, ⟨h11, h12, h13, h14⟩, ⟨h31, h32, h33⟩, hb, hw⟩
  · rename_i hr
    simp only [Timed.some_ready, Timed.watchdog_live, Bool.or_eq_true, decide_eq_true_eq,
      Bool.and_eq_true, not_or, not_le, not_and] at hr
    obtain ⟨⟨⟨⟨r0, r1⟩, r3⟩, rb⟩, rw⟩ := hr
    have n0 : ∀ k, pc0 = WorkerPc.start → w0 ≤ k := fun k hp => by have := h03 hp; omega
    have n1 : ∀ k, pc1 = Blink1Pc.start → w1 ≤ k := fun k hp => by have := h13 hp; omega
    have n3 : ∀ k, pc3 = WorkerPc.start → w3 ≤ k := fun k hp => by have := h33 hp; omega
    cases pcw with
    | returned =>
        simp only [Timed.next_wake, Timed.watchdog_live, Bool.false_eq_true, if_false, if_true]
        exact ⟨⟨by omega, by omega, n0 _⟩, ⟨by omega, by omega, n1 _, h14⟩,
          ⟨by omega, by omega, n3 _⟩, by omega, by simp⟩
    | start =>
        have hw2 := (hw (by simp)).2.2 rfl
        have rw2 := rw rfl
        exact absurd hw2 (by omega)
    | polling ch =>
        have hw2 := hw (by simp)
        have rw2 := rw rfl
        simp only [Timed.next_wake, Timed.watchdog_live, Bool.false_eq_true, if_false, if_true]
        exact ⟨⟨by omega, by omega, n0 _⟩, ⟨by omega, by omega, n1 _, h14⟩,
          ⟨by omega, by omega, n3 _⟩, by omega, fun _ => ⟨by omega, by omega, by simp⟩⟩

theorem tstep_WF (P : Platform) (a : Action) (s : Timed) (h : s.WF) : (tstep P a s).1.WF := by
  cases a with
  | blink0 => exact tstep_WF_blink0 P s h
  | blink1 => exact tstep_WF_blink1 P s h
  | uart_out => exact tstep_WF_uart_out P s h
  | button_read val => exact tstep_WF_button_read P val s h
  | watchdog => exact tstep_WF_watchdog P s h
  | advance => exact tstep_WF_advance P s h

theorem trun_WF (P : Platform) (acts : List Action) (s : Timed) (h : s.WF) :
    (trun P acts s).1.WF := by
  induction acts generalizing s with
  | nil => exact h
  | cons a rest ih => exact ih _ (tstep_WF P a s h)

theorem Timed.boot_Sync : Timed.boot.Sync := by
  simp [Timed.Sync, Timed.boot, Globals.boot]

theorem tstep_Sync_blink0 (P : Platform) (s : Timed) (hwf : s.WF) (h : s.Sync) :
    (tstep P Action.blink0 s).1.Sync := by
  obtain ⟨now, ⟨bf, f1, f2, f3, he, ru⟩, pc0, w0, c0, pc1, w1, c1, pc3, w3, c3, pcb, wb,
    pcw, ww⟩ := s
  simp only [Timed.WF] at hwf
  simp only [Timed.Sync] at h ⊢
  obtain ⟨⟨h01, h02, h03⟩, ⟨h11, h12, h13, h14⟩, ⟨h31, h32, h33⟩, hb, hw⟩ := hwf
  obtain ⟨⟨t0, t1, t2, t3, t4, t5⟩, hV, hS, hF, hK, hN, hM1, hM3⟩ := h
  simp only [tstep]
  split
  · rename_i hr
    cases pc0 with
    | start =>
        have hnow : now = 0 := hV (Or.inl rfl)
        simp only [blink0_segment]
        refine ⟨⟨t0, by omega, t2, t3, t4, t5⟩, ?_, hS, hF, hK, ?_, ?_, hM3⟩
        · intro hh
          exact hnow
        · intro h2
          have := hF h2
          omega
        · intro _ _ h100
          omega
    | sleeping =>
        simp only [blink0_segment]
        refine ⟨⟨t0, by omega, t2, t3, t4, t5⟩, ?_, hS, hF, hK, ?_, ?_, hM3⟩
        · intro hh
          exact hV (by simpa using hh)
        · intro h2
          rcases hN h2 with h | ⟨-, h3⟩
          · exact Or.inl h
          · exact Or.inr ⟨Or.inl trivial, h3⟩
        · intro hf
          cases hf
  · exact ⟨⟨t0, t1, t2, t3, t4, t5⟩, hV, hS, hF, hK, hN, hM1, hM3⟩

theorem tstep_Sync_uart_out (P : Platform) (s : Timed) (hwf : s.WF) (h : s.Sync) :
    (tstep P Action.uart_out s).1.Sync := by
  obtain ⟨now, ⟨bf, f1, f2, f3, he, ru⟩, pc0, w0, c0, pc1, w1, c1, pc3, w3, c3, pcb, wb,
    pcw, ww⟩ := s
  simp only [Timed.WF] at hwf
  simp only [Timed.Sync] at h ⊢
  obtain ⟨⟨h01, h02, h03⟩, ⟨h11, h12, h13, h14⟩, ⟨h31, h32, h33⟩, hb, hw⟩ := hwf
  obtain ⟨⟨t0, t1, t2, t3, t4, t5⟩, hV, hS, hF, hK, hN, hM1, hM3⟩ := h
  simp only [tstep]
  split
  · rename_i hr
    cases pc3 with
    | start =>
        have hnow : now = 0 := hV (Or.inr (Or.inr (Or.inl rfl)))
        simp only [uart_out_segment, uart_out_head]
        refine ⟨⟨t0, t1, t2, by omega, t4, t5⟩, ?_, hS, hF, hK, ?_, hM1, ?_⟩
        · intro hh
          exact hnow
        · intro h2
          have := hF h2
          omega
        · intro _ _ h100
          omega
    | sleeping =>
        simp only [uart_out_segment, uart_out_head]
        refine ⟨⟨t0, t1, t2, by omega, t4, t5⟩, ?_, hS, hF, hK, ?_, hM1, ?_⟩
        · intro hh
          exact hV (by simpa using hh)
        · intro h2
          rcases hN h2 with h | ⟨h1, -⟩
          · exact Or.inl h
          · exact Or.inr ⟨h1, Or.inl trivial⟩
        · intro hf
          cases hf
  · exact ⟨⟨t0, t1, t2, t3, t4, t5⟩, hV, hS, hF, hK, hN, hM1, hM3⟩

theorem tstep_Sync_button_read (P : Platform) (val : Bool) (s : Timed) (hwf : s.WF)
    (h : s.Sync) : (tstep P (Action.button_read val) s).1.Sync := by
  obtain ⟨now, ⟨bf, f1, f2, f3, he, ru⟩, pc0, w0, c0, pc1, w1, c1, pc3, w3, c3, pcb, wb,
    pcw, ww⟩ := s
  simp only [Timed.Sync] at h ⊢
  obtain ⟨⟨t0, t1, t2, t3, t4, t5⟩, hV, hS, hF, hK, hN, hM1, hM3⟩ := h
  simp only [tstep]
  split
  · cases pcb <;> cases val <;> cases ru <;>
      simp only [button_read_segment, button_read_head, if_true, if_false,
        Bool.false_eq_true] <;>
      exact ⟨⟨t0, t1, t2, t3, by omega, t5⟩, hV, hS, hF, hK, hN, hM1, hM3⟩
  · exact ⟨⟨t0, t1, t2, t3, t4, t5⟩, hV, hS, hF, hK, hN, hM1, hM3⟩

theorem tstep_Sync_blink1 (P : Platform) (s : Timed) (hwf : s.WF) (h : s.Sync) :
    (tstep P Action.blink1 s).1.Sync := by
  obtain ⟨now, ⟨bf, f1, f2, f3, he, ru⟩, pc0, w0, c0, pc1, w1, c1, pc3, w3, c3, pcb, wb,
    pcw, ww⟩ := s
  simp only [Timed.WF] at hwf
  simp only [Timed.Sync] at h ⊢
  obtain ⟨⟨h01, h02, h03⟩, ⟨h11, h12, h13, h14⟩, ⟨h31, h32, h33⟩, hb, hw⟩ := hwf
  obtain ⟨⟨t0, t1, t2, t3, t4, t5⟩, hV, hS, hF, hK, hN, hM1, hM3⟩ := h
  simp only [tstep]
  split
  · rename_i hr
    have hnow : now = w1 := by omega
    cases pc1 with
    | start =>
        have hz : now = 0 := hV (Or.inr (Or.inl rfl))
        cases bf <;>
          simp only [blink1_segment, blink1_head, if_true, if_false, Bool.false_eq_true] <;>
          refine ⟨⟨t0, t1, by omega, t3, t4, t5⟩, fun _ => hz, ?_, hF, ?_, hN,
            (fun _ _ _ => by first | rfl | trivial), (fun _ _ _ => by first | rfl | trivial)⟩
        · intro i hi
          cases hi
        · intro h2
          exact Or.inr (Or.inl (by first | rfl | trivial))
        · intro i hi
          omega
        · intro h2
          exact Or.inr (Or.inl (by first | rfl | trivial))
    | tail =>
        have hV2 : ∀ q : Blink1Pc, q ≠ Blink1Pc.start →
            (pc0 = WorkerPc.start ∨ q = Blink1Pc.start ∨ pc3 = WorkerPc.start
              ∨ pcw = WatchdogPc.start) → now = 0 := by
          intro q hq hh
          rcases hh with a | a | a | a
          · exact hV (Or.inl a)
          · exact absurd a hq
          · exact hV (Or.inr (Or.inr (Or.inl a)))
          · exact hV (Or.inr (Or.inr (Or.inr a)))
        cases bf <;>
          simp only [blink1_segment, blink1_head, if_true, if_false, Bool.false_eq_true] <;>
          refine ⟨⟨t0, t1, by omega, t3, t4, t5⟩, hV2 _ (by simp), ?_, hF, ?_, hN,
            (fun _ _ _ => by first | rfl | trivial), (fun _ _ _ => by first | rfl | trivial)⟩
        · intro i hi
          cases hi
        · intro h2
          exact Or.inr (Or.inl (by first | rfl | trivial))
        · intro i hi
          omega
        · intro h2
          exact Or.inr (Or.inl (by first | rfl | trivial))
    | in_for i =>
        have hV2 : ∀ q : Blink1Pc, q ≠ Blink1Pc.start →
            (pc0 = WorkerPc.start ∨ q = Blink1Pc.start ∨ pc3 = WorkerPc.start
              ∨ pcw = WatchdogPc.start) → now = 0 := by
          intro q hq hh
          rcases hh with a | a | a | a
          · exact hV (Or.inl a)
          · exact absurd a hq
          · exact hV (Or.inr (Or.inr (Or.inl a)))
          · exact hV (Or.inr (Or.inr (Or.inr a)))
        have h100 : 100 ≤ w1 := hS i rfl
        have hN2 : (f1 = true ∨ w0 ≤ now) ∧ (f3 = true ∨ w3 ≤ now) := by
          constructor
          · cases f1 with
            | true => exact Or.inl rfl
            | false =>
                have := hM1 rfl
                exact Or.inr (by omega)
          · cases f3 with
            | true => exact Or.inl rfl
            | false =>
                have := hM3 rfl
                exact Or.inr (by omega)
        simp only [blink1_segment]
        split <;> dsimp only <;>
          refine ⟨⟨t0, t1, by omega, t3, t4, t5⟩, hV2 _ (by simp), ?_, (fun _ => by omega),
            (fun _ => Or.inr (Or.inl rfl)), (fun _ => Or.inr hN2),
            (fun _ _ _ => rfl), (fun _ _ _ => rfl)⟩
        · intro j hj
          omega
        · intro j hj
          cases hj
  · exact ⟨⟨t0, t1, t2, t3, t4, t5⟩, hV, hS, hF, hK, hN, hM1, hM3⟩

theorem tstep_Sync_watchdog (P : Platform) (s : Timed) (hwf : s.WF) (h : s.Sync) :
    (tstep P Action.watchdog s).1.Sync := by
  obtain ⟨now, ⟨bf, f1, f2, f3, he, ru⟩, pc0, w0, c0, pc1, w1, c1, pc3, w3, c3, pcb, wb,
    pcw, ww⟩ := s
  simp only [Timed.WF] at hwf
  simp only [Timed.Sync] at h ⊢
  obtain ⟨⟨h01, h02, h03⟩, ⟨h11, h12, h13, h14⟩, ⟨h31, h32, h33⟩, hb, hw⟩ := hwf
  obtain ⟨⟨t0, t1, t2, t3, t4, t5⟩, hV, hS, hF, hK, hN, hM1, hM3⟩ := h
  simp only [tstep]
  split
  · rename_i hr
    cases pcw with
    | returned => simp [Timed.watchdog_live] at hr
    | start =>
        have hz : now = 0 := hV (Or.inr (Or.inr (Or.inr rfl)))
        have hf2 : f2 = false := by
          cases f2 with
          | false => rfl
          | true =>
              have := hF rfl
              omega
        subst hf2
        simp only [watchdog_segment]
        split <;> dsimp only <;>
          refine ⟨⟨t0, t1, t2, t3, t4, (by have := t5; try simp only [POLL_MS]
                                           omega)⟩, fun _ => hz, hS,
            (fun hh => Bool.noConfusion hh), (fun hh => Bool.noConfusion hh),
            (fun hh => Bool.noConfusion hh), hM1, hM3⟩
    | polling ch =>
        have hw2 := hw (by simp)
        have hV2 : (pc0 = WorkerPc.start ∨ pc1 = Blink1Pc.start ∨ pc3 = WorkerPc.start
              ∨ WatchdogPc.polling ch = WatchdogPc.start) → now = 0 := hV
        simp only [watchdog_segment]
        split
        · rename_i hall
          simp only [Bool.and_eq_true] at hall
          obtain ⟨⟨rfl, rfl⟩, rfl⟩ := hall
          have hK2 := hK rfl
          dsimp only
          refine ⟨⟨t0, t1, t2, t3, t4, (by have := t5; simp only [POLL_MS]; omega)⟩, hV2, hS,
            (fun hh => Bool.noConfusion hh), (fun hh => Bool.noConfusion hh),
            (fun hh => Bool.noConfusion hh), ?_, ?_⟩
          · intro _ e0 e1
            rcases hK2 with hk | hk | ⟨hk, -⟩
            · cases hk
            · omega
            · omega
          · intro _ e0 e1
            rcases hK2 with hk | hk | ⟨hk, -⟩
            · cases hk
            · omega
            · omega
        · rename_i hall
          dsimp only
          refine ⟨⟨t0, t1, t2, t3, t4, (by have := t5; simp only [POLL_MS]; omega)⟩, hV2, hS, hF, ?_, hN,
            hM1, hM3⟩
          intro h2
          subst h2
          rcases hK rfl with hk | hk | ⟨hk, -⟩
          · cases hk
          · exact Or.inr (Or.inl hk)
          · exfalso
            rcases hN rfl with hn | ⟨hn1, hn3⟩
            · cases hn
            · have e1 : f1 = true := by
                rcases hn1 with a | a
                · exact a
                · omega
              have e3 : f3 = true := by
                rcases hn3 with a | a
                · exact a
                · omega
              subst e1
              subst e3
              simp at hall
  · exact ⟨⟨t0, t1, t2, t3, t4, t5⟩, hV, hS, hF, hK, hN, hM1, hM3⟩

theorem tstep_Sync_advance (P : Platform) (s : Timed) (hwf : s.WF) (h : s.Sync) :
    (tstep P Action.advance s).1.Sync := by
  obtain ⟨now, ⟨bf, f1, f2, f3, he, ru⟩, pc0, w0, c0, pc1, w1, c1, pc3, w3, c3, pcb, wb,
    pcw, ww⟩ := s
  simp only [Timed.WF] at hwf
  simp only [Timed.Sync] at h ⊢
  obtain ⟨⟨h01, h02, h03⟩, ⟨h11, h12, h13, h14⟩, ⟨h31, h32, h33⟩, hb, hw⟩ := hwf
  obtain ⟨⟨t0, t1, t2, t3, t4, t5⟩, hV, hS, hF, hK, hN, hM1, hM3⟩ := h
  simp only [tstep]
  split
  · exact ⟨⟨t0, t1, t2, t3, t4, t5⟩, hV, hS, hF, hK, hN, hM1, hM3⟩
  · rename_i hr
    simp only [Timed.some_ready, Timed.watchdog_live, Bool.or_eq_true, decide_eq_true_eq,
      Bool.and_eq_true, not_or, not_le, not_and] at hr
    obtain ⟨⟨⟨⟨r0, r1⟩, r3⟩, rb⟩, rw⟩ := hr
    have n0 : pc0 ≠ WorkerPc.start := fun hp => by have := h03 hp; omega
    have n1 : pc1 ≠ Blink1Pc.start := fun hp => by have := h13 hp; omega
    have n3 : pc3 ≠ WorkerPc.start := fun hp => by have := h33 hp; omega
    cases pcw with
    | returned =>
        simp only [Timed.next_wake, Timed.watchdog_live, Bool.false_eq_true, if_false]
        refine ⟨⟨by omega, t1, t2, t3, t4, t5⟩, ?_, hS, (fun h2 => by have := hF h2; omega),
          (fun _ => Or.inl trivial), (fun _ => Or.inl trivial), ?_, ?_⟩
        · intro hh
          rcases hh with a | a | a | a
          · exact absurd a n0
          · exact absurd a n1
          · exact absurd a n3
          · cases a
        · intro _ e0 _
          omega
        · intro _ e0 _
          omega
    | start =>
        have hw2 := (hw (by simp)).2.2 rfl
        have rw2 := rw rfl
        exact absurd hw2 (by omega)
    | polling ch =>
        have hw2 := hw (by simp)
        have rw2 := rw rfl
        simp only [Timed.next_wake, Timed.watchdog_live, if_true]
        refine ⟨⟨by omega, t1, t2, t3, t4, t5⟩, ?_, hS, (fun h2 => by have := hF h2; omega),
          ?_, ?_, ?_, ?_⟩
        · intro hh
          rcases hh with a | a | a | a
          · exact absurd a n0
          · exact absurd a n1
          · exact absurd a n3
          · cases a
        · intro h2
          rcases hK h2 with hk | hk | ⟨hk, hk2⟩
          · cases hk
          · exact Or.inr (Or.inr (by omega))
          · omega
        · intro h2
          rcases hN h2 with hn | ⟨hn1, hn3⟩
          · cases hn
          · refine Or.inr ⟨?_, ?_⟩
            · rcases hn1 with a | a
              · exact Or.inl a
              · omega
            · rcases hn3 with a | a
              · exact Or.inl a
              · omega
        · intro _ e0 _
          omega
        · intro _ e0 _
          omega

theorem tstep_Sync (P : Platform) (a : Action) (s : Timed) (hwf : s.WF) (h : s.Sync) :
    (tstep P a s).1.Sync := by
  cases a with
  | blink0 => exact tstep_Sync_blink0 P s hwf h
  | blink1 => exact tstep_Sync_blink1 P s hwf h
  | uart_out => exact tstep_Sync_uart_out P s hwf h
  | button_read val => exact tstep_Sync_button_read P val s hwf h
  | watchdog => exact tstep_Sync_watchdog P s hwf h
  | advance => exact tstep_Sync_advance P s hwf h

theorem trun_Sync (P : Platform) (acts : List Action) (s : Timed) (hwf : s.WF)
    (h : s.Sync) : (trun P acts s).1.Sync := by
  induction acts generalizing s with
  | nil => exact h
  | cons a rest ih => exact ih _ (tstep_WF P a s hwf) (tstep_Sync P a s hwf h)

/-- A step that leaves `blink1` and `thread2_flag` alone, lowers no other flag
and delays neither the next stores to the flags nor the next check keeps the
state safe. -/
theorem Timed.Safe.mono {D : Nat} {s s' : Timed} (hs : s.Safe D)
    (hpc : s'.blink1_pc = s.blink1_pc) (hw1 : s'.blink1_wake = s.blink1_wake)
    (hf2 : s'.g.thread2_flag = s.g.thread2_flag)
    (hlive : s'.watchdog_live = s.watchdog_live)
    (h1 : s'.g.thread1_flag = true
      ∨ (s'.g.thread1_flag = s.g.thread1_flag ∧ s'.next_beat0 ≤ s.next_beat0))
    (h3 : s'.g.thread3_flag = true
      ∨ (s'.g.thread3_flag = s.g.thread3_flag ∧ s'.next_beat3 ≤ s.next_beat3))
    (hp : s'.next_poll ≤ s.next_poll) : s'.Safe D := by
  unfold Timed.Safe at hs ⊢
  rw [hpc, hw1, hf2, hlive]
  cases hpc1 : s.blink1_pc with
  | in_for i => simpa [hpc1] using hs
  | start =>
      simp only [hpc1] at hs ⊢
      rcases hs with h | h | ⟨a, b, c⟩
      · exact Or.inl h
      · exact Or.inr (Or.inl h)
      · refine Or.inr (Or.inr ⟨?_, ?_, by omega⟩)
        · rcases h1 with h1 | ⟨e, l⟩
          · exact Or.inl h1
          · rcases a with a | a
            · exact Or.inl (by rw [e]; exact a)
            · exact Or.inr (by omega)
        · rcases h3 with h3 | ⟨e, l⟩
          · exact Or.inl h3
          · rcases b with b | b
            · exact Or.inl (by rw [e]; exact b)
            · exact Or.inr (by omega)
  | tail =>
      simp only [hpc1] at hs ⊢
      rcases hs with h | h | ⟨a, b, c⟩
      · exact Or.inl h
      · exact Or.inr (Or.inl h)
      · refine Or.inr (Or.inr ⟨?_, ?_, by omega⟩)
        · rcases h1 with h1 | ⟨e, l⟩
          · exact Or.inl h1
          · rcases a with a | a
            · exact Or.inl (by rw [e]; exact a)
            · exact Or.inr (by omega)
        · rcases h3 with h3 | ⟨e, l⟩
          · exact Or.inl h3
          · rcases b with b | b
            · exact Or.inl (by rw [e]; exact b)
            · exact Or.inr (by omega)

theorem tstep_Safe_blink0 (P : Platform) (s : Timed) (D : Nat) (hwf : s.WF) (hs : s.Safe D) :
    (tstep P Action.blink0 s).1.Safe D ∧ ∀ t ∈ feedTimes (tstep P Action.blink0 s).2, t ≤ D := by
  have hwf0 := hwf.1
  simp only [tstep]
  split
  · refine ⟨?_, ?_⟩
    · cases hpc : s.blink0_pc with
      | start =>
          refine hs.mono ?_ ?_ ?_ ?_ (Or.inr ⟨?_, ?_⟩) (Or.inr ⟨?_, ?_⟩) ?_ <;>
            simp [blink0_segment, hpc, Timed.watchdog_live, Timed.next_beat0, Timed.next_beat3,
              Timed.next_poll]
          omega
      | sleeping =>
          refine hs.mono ?_ ?_ ?_ ?_ (Or.inl ?_) (Or.inr ⟨?_, ?_⟩) ?_ <;>
            simp [blink0_segment, hpc, Timed.watchdog_live, Timed.next_beat0, Timed.next_beat3,
              Timed.next_poll]
    · rw [feedTimes_stamp_nil]
      · simp
      · cases hpc : s.blink0_pc <;> simp [blink0_segment, hpc, feedCount]
  · exact ⟨hs, by simp [feedTimes]⟩

theorem tstep_Safe_uart_out (P : Platform) (s : Timed) (D : Nat) (hwf : s.WF) (hs : s.Safe D) :
    (tstep P Action.uart_out s).1.Safe D
      ∧ ∀ t ∈ feedTimes (tstep P Action.uart_out s).2, t ≤ D := by
  have hwf3 := hwf.2.2.1
  simp only [tstep]
  split
  · refine ⟨?_, ?_⟩
    · cases hpc : s.uart_pc with
      | start =>
          refine hs.mono ?_ ?_ ?_ ?_ (Or.inr ⟨?_, ?_⟩) (Or.inr ⟨?_, ?_⟩) ?_ <;>
            simp [uart_out_segment, uart_out_head, hpc, Timed.watchdog_live, Timed.next_beat0,
              Timed.next_beat3, Timed.next_poll]
          omega
      | sleeping =>
          refine hs.mono ?_ ?_ ?_ ?_ (Or.inr ⟨?_, ?_⟩) (Or.inl ?_) ?_ <;>
            simp [uart_out_segment, uart_out_head, hpc, Timed.watchdog_live, Timed.next_beat0,
              Timed.next_beat3, Timed.next_poll]
    · rw [feedTimes_stamp_nil]
      · simp
      · cases hpc : s.uart_pc <;>
          simp only [uart_out_segment, uart_out_head, hpc] <;>
          split <;> simp [feedCount]
  · exact ⟨hs, by simp [feedTimes]⟩

theorem tstep_Safe_button_read (P : Platform) (val : Bool) (s : Timed) (D : Nat)
    (hs : s.Safe D) :
    (tstep P (Action.button_read val) s).1.Safe D
      ∧ ∀ t ∈ feedTimes (tstep P (Action.button_read val) s).2, t ≤ D := by
  simp only [tstep]
  split
  · refine ⟨?_, ?_⟩
    · cases hpc : s.button_pc <;> cases val <;> cases hr : s.g.thread_is_running <;>
        refine hs.mono ?_ ?_ ?_ ?_ (Or.inr ⟨?_, ?_⟩) (Or.inr ⟨?_, ?_⟩) ?_ <;>
          simp [button_read_segment, button_read_head, hpc, hr, Timed.watchdog_live,
            Timed.next_beat0, Timed.next_beat3, Timed.next_poll]
    · rw [feedTimes_stamp_nil]
      · simp
      · cases hpc : s.button_pc <;> cases val <;> cases hr : s.g.thread_is_running <;>
          simp [button_read_segment, button_read_head, hpc, hr, feedCount]
  · exact ⟨hs, by simp [feedTimes]⟩

theorem tstep_Safe_advance (P : Platform) (s : Timed) (D : Nat) (hs : s.Safe D) :
    (tstep P Action.advance s).1.Safe D
      ∧ ∀ t ∈ feedTimes (tstep P Action.advance s).2, t ≤ D := by
  simp only [tstep]
  split
  · exact ⟨hs, by simp [feedTimes]⟩
  · refine ⟨?_, by simp [feedTimes]⟩
    refine hs.mono ?_ ?_ ?_ ?_ (Or.inr ⟨?_, ?_⟩) (Or.inr ⟨?_, ?_⟩) ?_ <;>
      simp [Timed.watchdog_live, Timed.next_beat0, Timed.next_beat3, Timed.next_poll]

theorem tstep_Safe_blink1 (P : Platform) (s : Timed) (D : Nat) (hwf : s.WF)
    (hsync : s.Sync) (hs : s.Safe D) (hg : s.g.button_flag = false) :
    (tstep P Action.blink1 s).1.Safe D
      ∧ ∀ t ∈ feedTimes (tstep P Action.blink1 s).2, t ≤ D := by
  have hpost := tstep_Sync P Action.blink1 s hwf hsync
  obtain ⟨-, hV, hS, -, -, -, -, -⟩ := hsync
  obtain ⟨h0, h1, h3, -, hw⟩ := hwf
  simp only [tstep] at hpost ⊢
  split
  · rename_i hready
    simp only [hready, if_true] at hpost
    refine ⟨?_, ?_⟩
    · cases hpc : s.blink1_pc with
      | start =>
          unfold Timed.Safe at hs ⊢
          simp only [hpc] at hs
          simpa [blink1_segment, blink1_head, hpc, hg, Timed.watchdog_live, Timed.next_beat0,
            Timed.next_beat3, Timed.next_poll] using hs
      | tail =>
          unfold Timed.Safe at hs ⊢
          simp only [hpc] at hs
          simpa [blink1_segment, blink1_head, hpc, hg, Timed.watchdog_live, Timed.next_beat0,
            Timed.next_beat3, Timed.next_poll] using hs
      | in_for i =>
          have hi := h1.2.2.2 i hpc
          unfold Timed.Safe at hs ⊢
          simp only [hpc] at hs
          by_cases h8 : i + 1 < 8
          · simp only [blink1_segment, hpc, h8, if_true]
            omega
          · have h7 : i = 7 := by omega
            subst h7
            have e : (blink1_segment s).1
                = { s with g := { s.g with thread2_flag := true }
                           blink1_cnt := wrap32 (s.blink1_cnt + 1)
                           blink1_pc := Blink1Pc.tail
                           blink1_wake := s.now + 100 } := by
              simp [blink1_segment, hpc]
            rw [e] at hpost ⊢
            have hN := hpost.2.2.2.2.2.1 rfl
            dsimp only at hN
            have h100 := hS 7 hpc
            have hnow := h1.1
            have hp0 : s.blink0_pc = WorkerPc.sleeping := by
              cases hq : s.blink0_pc with
              | start =>
                  have := hV (Or.inl hq)
                  omega
              | sleeping => rfl
            have hp3 : s.uart_pc = WorkerPc.sleeping := by
              cases hq : s.uart_pc with
              | start =>
                  have := hV (Or.inr (Or.inr (Or.inl hq)))
                  omega
              | sleeping => rfl
            simp only [Timed.watchdog_live, Timed.next_beat0, Timed.next_beat3, Timed.next_poll,
              hp0, hp3]
            refine Or.inr ?_
            cases hpw : s.watchdog_pc with
            | returned => exact Or.inl rfl
            | start =>
                have := hV (Or.inr (Or.inr (Or.inr hpw)))
                omega
            | polling ch =>
                have hw2 := hw (by simp [hpw])
                rcases hN with hn | ⟨hn1, hn3⟩
                · rw [hpw] at hn
                  cases hn
                · refine Or.inr ⟨?_, ?_, ?_⟩
                  · rcases hn1 with a | a
                    · exact Or.inl a
                    · exact Or.inr (by omega)
                  · rcases hn3 with a | a
                    · exact Or.inl a
                    · exact Or.inr (by omega)
                  · simp only []
                    omega
    · rw [feedTimes_stamp_nil]
      · simp
      · cases hpc : s.blink1_pc <;>
          simp only [blink1_segment, blink1_head, hpc, hg] <;>
          (try split) <;> simp [feedCount]
  · exact ⟨hs, by simp [feedTimes]⟩

theorem tstep_Safe_watchdog (P : Platform) (s : Timed) (D : Nat) (hwf : s.WF) (hs : s.Safe D) :
    (tstep P Action.watchdog s).1.Safe D
      ∧ ∀ t ∈ feedTimes (tstep P Action.watchdog s).2, t ≤ D := by
  obtain ⟨h0, h1, h3, -, hw⟩ := hwf
  simp only [tstep]
  split
  · rename_i hready
    cases hpw : s.watchdog_pc with
    | returned => simp [Timed.watchdog_live, hpw] at hready
    | start =>
        have hw2 := hw (by simp [hpw])
        simp only [watchdog_segment, hpw]
        have hnf := feedCount_watchdog_start P.ENOTSUP P.rr P.d
        rcases hst : watchdog_start P.ENOTSUP P.rr P.d with ⟨t, _ | ch⟩
        · rw [hst] at hnf
          refine ⟨?_, ?_⟩
          · unfold Timed.Safe at hs ⊢
            cases hpc : s.blink1_pc <;> simp only [hpc] at hs ⊢
            · exact Or.inr (Or.inl rfl)
            · exact hs
            · exact Or.inr (Or.inl rfl)
          · rw [feedTimes_stamp_nil _ _ hnf]
            simp
        · rw [hst] at hnf
          refine ⟨?_, ?_⟩
          · refine hs.mono ?_ ?_ ?_ ?_ (Or.inr ⟨?_, ?_⟩) (Or.inr ⟨?_, ?_⟩) ?_ <;>
              simp [hpw, Timed.watchdog_live, Timed.next_beat0, Timed.next_beat3, Timed.next_poll,
                POLL_MS]
            omega
          · rw [feedTimes_stamp_nil]
            · simp
            · simpa [feedCount_append, feedCount] using hnf
    | polling ch =>
        have hw2 := hw (by simp [hpw])
        simp only [watchdog_segment, hpw]
        have hb0 : s.now ≤ s.next_beat0 := by
          have := h0.1
          unfold Timed.next_beat0
          cases s.blink0_pc <;> simp only [] <;> omega
        have hb3 : s.now ≤ s.next_beat3 := by
          have := h3.1
          unfold Timed.next_beat3
          cases s.uart_pc <;> simp only [] <;> omega
        have hnp : s.next_poll = s.watchdog_wake := by
          simp [Timed.next_poll, hpw]
        have hlive : s.watchdog_live = true := by
          simp [Timed.watchdog_live, hpw]
        split
        · rename_i hall
          simp only [Bool.and_eq_true] at hall
          obtain ⟨⟨hf1, hf2⟩, hf3⟩ := hall
          have hnow : s.now ≤ D := by
            unfold Timed.Safe at hs
            cases hpc : s.blink1_pc with
            | in_for i =>
                simp only [hpc] at hs
                have := h1.1
                omega
            | start =>
                simp only [hpc] at hs
                rcases hs with h | h | ⟨_, _, c⟩
                · rw [hf2] at h; cases h
                · rw [hlive] at h; cases h
                · have := hw2.1
                  omega
            | tail =>
                simp only [hpc] at hs
                rcases hs with h | h | ⟨_, _, c⟩
                · rw [hf2] at h; cases h
                · rw [hlive] at h; cases h
                · have := hw2.1
                  omega
          refine ⟨?_, ?_⟩
          · unfold Timed.Safe at hs ⊢
            cases hpc : s.blink1_pc <;> simp only [hpc] at hs ⊢
            · exact Or.inl trivial
            · exact hs
            · exact Or.inl trivial
          · intro t ht
            simp only [stamp, List.map, feedTimes, List.mem_singleton] at ht
            omega
        · rename_i hall
          refine ⟨?_, by simp [stamp, feedTimes]⟩
          unfold Timed.Safe at hs ⊢
          cases hpc : s.blink1_pc with
          | in_for i =>
              simp only [hpc] at hs ⊢
              exact hs
          | start =>
              simp only [hpc] at hs ⊢
              rcases hs with h | h | ⟨a, b, c⟩
              · exact Or.inl h
              · rw [hlive] at h; cases h
              · cases hf2 : s.g.thread2_flag with
                | false => exact Or.inl rfl
                | true =>
                    refine Or.inr (Or.inr ⟨a, b, ?_⟩)
                    simp only [Timed.next_poll, hpw, POLL_MS]
                    cases hf1 : s.g.thread1_flag with
                    | false =>
                        rcases a with a | a
                        · rw [hf1] at a; cases a
                        · omega
                    | true =>
                        cases hf3 : s.g.thread3_flag with
                        | false =>
                            rcases b with b | b
                            · rw [hf3] at b; cases b
                            · omega
                        | true => simp [hf1, hf2, hf3] at hall
          | tail =>
              simp only [hpc] at hs ⊢
              rcases hs with h | h | ⟨a, b, c⟩
              · exact Or.inl h
              · rw [hlive] at h; cases h
              · cases hf2 : s.g.thread2_flag with
                | false => exact Or.inl rfl
                | true =>
                    refine Or.inr (Or.inr ⟨a, b, ?_⟩)
                    simp only [Timed.next_poll, hpw, POLL_MS]
                    cases hf1 : s.g.thread1_flag with
                    | false =>
                        rcases a with a | a
                        · rw [hf1] at a; cases a
                        · omega
                    | true =>
                        cases hf3 : s.g.thread3_flag with
                        | false =>
                            rcases b with b | b
                            · rw [hf3] at b; cases b
                            · omega
                        | true => simp [hf1, hf2, hf3] at hall
  · exact ⟨hs, by simp [feedTimes]⟩

theorem tstep_Safe (P : Platform) (a : Action) (s : Timed) (D : Nat) (hwf : s.WF)
    (hsync : s.Sync) (hs : s.Safe D) (hg : s.g.button_flag = false) :
    (tstep P a s).1.Safe D ∧ ∀ t ∈ feedTimes (tstep P a s).2, t ≤ D := by
  cases a with
  | blink0 => exact tstep_Safe_blink0 P s D hwf hs
  | blink1 => exact tstep_Safe_blink1 P s D hwf hsync hs hg
  | uart_out => exact tstep_Safe_uart_out P s D hwf hs
  | button_read val => exact tstep_Safe_button_read P val s D hs
  | watchdog => exact tstep_Safe_watchdog P s D hwf hs
  | advance => exact tstep_Safe_advance P s D hs

theorem trun_feed_le (P : Platform) (acts : List Action) (s : Timed) (D : Nat) (hwf : s.WF)
    (hsync : s.Sync) (hs : s.Safe D) (hoff : gate_stays_off P acts s = true) :
    ∀ t ∈ feedTimes (trun P acts s).2, t ≤ D := by
  induction acts generalizing s with
  | nil => simp [trun, feedTimes]
  | cons a rest ih =>
      simp only [gate_stays_off, Bool.and_eq_true, Bool.not_eq_true'] at hoff
      have h1 := tstep_Safe P a s D hwf hsync hs hoff.1
      intro t ht
      simp only [trun, feedTimes_append, List.mem_append] at ht
      rcases ht with ht | ht
      · exact h1.2 t ht
      · exact ih _ (tstep_WF P a s hwf) (tstep_Sync P a s hwf hsync) h1.1 hoff.2 t ht

theorem Timed.WF.safe (s : Timed) (hwf : s.WF) : s.Safe (s.now + 850) := by
  obtain ⟨h0, h1, h3, -, hw⟩ := hwf
  unfold Timed.Safe
  cases hpc : s.blink1_pc with
  | in_for i =>
      have hi := h1.2.2.2 i hpc
      simp only []
      omega
  | start =>
      simp only []
      cases hpw : s.watchdog_pc with
      | returned => exact Or.inr (Or.inl (by simp [Timed.watchdog_live, hpw]))
      | start =>
          have hw2 := hw (by simp [hpw])
          have hw3 := hw2.2.2 hpw
          refine Or.inr (Or.inr ⟨Or.inr ?_, Or.inr ?_, ?_⟩)
          · unfold Timed.next_beat0
            cases hp0 : s.blink0_pc
            · have := h0.2.2 hp0
              simp only []
              omega
            · simp only []
              omega
          · unfold Timed.next_beat3
            cases hp3 : s.uart_pc
            · have := h3.2.2 hp3
              simp only []
              omega
            · simp only []
              omega
          · simp only [Timed.next_poll, hpw]
            omega
      | polling ch =>
          have hw2 := hw (by simp [hpw])
          refine Or.inr (Or.inr ⟨Or.inr ?_, Or.inr ?_, ?_⟩)
          · unfold Timed.next_beat0
            cases hp0 : s.blink0_pc
            · have := h0.2.2 hp0
              simp only []
              omega
            · simp only []
              omega
          · unfold Timed.next_beat3
            cases hp3 : s.uart_pc
            · have := h3.2.2 hp3
              simp only []
              omega
            · simp only []
              omega
          · simp only [Timed.next_poll, hpw]
            omega
  | tail =>
      simp only []
      cases hpw : s.watchdog_pc with
      | returned => exact Or.inr (Or.inl (by simp [Timed.watchdog_live, hpw]))
      | start =>
          have hw2 := hw (by simp [hpw])
          have hw3 := hw2.2.2 hpw
          refine Or.inr (Or.inr ⟨Or.inr ?_, Or.inr ?_, ?_⟩)
          · unfold Timed.next_beat0
            cases hp0 : s.blink0_pc
            · have := h0.2.2 hp0
              simp only []
              omega
            · simp only []
              omega
          · unfold Timed.next_beat3
            cases hp3 : s.uart_pc
            · have := h3.2.2 hp3
              simp only []
              omega
            · simp only []
              omega
          · simp only [Timed.next_poll, hpw]
            omega
      | polling ch =>
          have hw2 := hw (by simp [hpw])
          refine Or.inr (Or.inr ⟨Or.inr ?_, Or.inr ?_, ?_⟩)
          · unfold Timed.next_beat0
            cases hp0 : s.blink0_pc
            · have := h0.2.2 hp0
              simp only []
              omega
            · simp only []
              omega
          · unfold Timed.next_beat3
            cases hp3 : s.uart_pc
            · have := h3.2.2 hp3
              simp only []
              omega
            · simp only []
              omega
          · simp only [Timed.next_poll, hpw]
            omega

/-- C7, as stated, fails.  In the run below every thread starts at time 0 and
`blink1`, finding the gate enabled, enters its `for`; the button is pressed and
`button_read` disables the gate at time 50, and the gate stays disabled.
`blink1` still stores to `thread2_flag` at 100, 200, ..., 800, and the
supervisor calls `wdt_feed` at each of these times: the calls at 600, 700 and
800 are later than 50 + 500. -/
theorem feed_later_than_500ms_after_gate_off :
    all_ready Platform.ok (example_start ++ example_press ++ example_run) Timed.boot = true
    ∧ (trun Platform.ok example_start Timed.boot).1.g.button_flag = true
    ∧ (trun Platform.ok (example_start ++ example_press) Timed.boot).1.now = 50
    ∧ gate_stays_off Platform.ok example_run
        (trun Platform.ok (example_start ++ example_press) Timed.boot).1 = true
    ∧ feedTimes (trun Platform.ok example_run
        (trun Platform.ok (example_start ++ example_press) Timed.boot).1).2
        = [100, 200, 300, 400, 500, 600, 700, 800]
    ∧ 50 + WDT_WINDOW_MAX < 800 := by
  decide

/-- C7, amended: in the timed model given by the code's sleeps, for every
execution from boot in which the gate is disabled at time `t0` and stays
disabled, the supervisor makes no `wdt_feed` call later than `t0 + 850` ms:
`blink1` may still finish the `for` it has entered, storing to `thread2_flag`
up to `t0 + 800`, and the last store is answered by at most one feed, at the
supervisor's next check 50 ms later at the latest. -/
theorem no_feed_later_than_850ms_after_gate_off (P : Platform) (before after : List Action)
    (hoff : gate_stays_off P after (trun P before Timed.boot).1 = true) :
    ∀ t ∈ feedTimes (trun P after (trun P before Timed.boot).1).2,
      t ≤ (trun P before Timed.boot).1.now + 850 :=
  trun_feed_le P after _ _ (trun_WF P before _ Timed.boot_WF)
    (trun_Sync P before _ Timed.boot_WF Timed.boot_Sync)
    (Timed.WF.safe _ (trun_WF P before _ Timed.boot_WF)) hoff

/-- C7, amended, on a run that attains the bound: the gate is disabled at
time 0, just after `blink1` has entered its `for`; the supervisor, running
before the workers at every instant, feeds at 150, 250, ..., 850. -/
theorem no_feed_later_than_850ms_after_gate_off_example :
    all_ready Platform.ok (example_press_at_boot ++ example_late_run) Timed.boot = true
    ∧ (trun Platform.ok example_press_at_boot Timed.boot).1.now = 0
    ∧ gate_stays_off Platform.ok example_late_run
        (trun Platform.ok example_press_at_boot Timed.boot).1 = true
    ∧ feedTimes (trun Platform.ok example_late_run
        (trun Platform.ok example_press_at_boot Timed.boot).1).2
        = [150, 250, 350, 450, 550, 650, 750, 850]
    ∧ ∀ t ∈ feedTimes (trun Platform.ok example_late_run
          (trun Platform.ok example_press_at_boot Timed.boot).1).2,
        t ≤ (trun Platform.ok example_press_at_boot Timed.boot).1.now + 850 :=
  ⟨by decide, by decide, by decide, by decide,
    no_feed_later_than_850ms_after_gate_off Platform.ok example_press_at_boot
      example_late_run (by decide)⟩

end WdtThreads
